import Mathlib

/-!
# Control-Surface: the multi-mode Selector and the VU meter

A shallow embedding of `src/Banks/Selector.h` (the class `Selector`, its data
members and its nine constructors) together with the polling layer
(`refresh`, `setSetting`, `debounceButton`, `refreshLEDs`), whose bodies live
in `Selector.cpp`; that file is not part of the sources at hand, so the
polling layer is modelled from the specification and marked as such. The
classes `MCU_VU` and `MCU_VU_LED` of `src/MIDI_Inputs/MIDI_Input_VU.h` follow
in a section of their own.

Conventions of the embedding:

* a pin identifier (`pin_t`) is a natural number; the width of `pin_t` is
  declared in a header that is not at hand and no width is assumed;
* `uint8_t` members hold their value modulo `256`; `unsigned long` holds its
  value modulo `2 ^ 32`;
* a data member that a constructor never assigns and that has no default
  member initialiser is `none` (indeterminate in C++);
* the hardware calls (`pinMode`, `digitalWrite`), the registration in the
  linked list of instances (`LinkedList::append`) and the call of the virtual
  hook (`refreshImpl`) are recorded, in program order, in a list of `Effect`s;
* a constructor returns `none` exactly when it reads an array element that
  does not exist (undefined behaviour in C++). The constructors have no
  error path of their own: `none` never stands for a reported error.
  `malloc` is taken to succeed.
-/

namespace ControlSurface

/-! ## Data model of `Selector.h` -/

/-- Pin identifiers (`pin_t`). -/
abbrev pin_t := Nat

/-- Digital level `HIGH`: the pull-up level of a released switch. -/
abbrev HIGH : Bool := true

/-- Digital level `LOW`: the level of a pressed (conducting) switch. -/
abbrev LOW : Bool := false

/-- Modulus of a `uint8_t`. -/
abbrev UINT8 : Nat := 256

/-- Modulus of an `unsigned long` (32 bits on the supported boards). -/
abbrev ULONG : Nat := 2 ^ 32

/-- The enumeration `Selector::buttonType`. -/
inductive buttonType where
  | TOGGLE
  | MOMENTARY
  deriving DecidableEq

/-- The enumeration `Selector::SelectorMode`, in the order of the header. -/
inductive SelectorMode where
  | SINGLE_BUTTON
  | SINGLE_BUTTON_LED
  | SINGLE_SWITCH
  | SINGLE_SWITCH_LED
  | MULTIPLE_BUTTONS
  | MULTIPLE_BUTTONS_LEDS
  | INCREMENT_DECREMENT
  | INCREMENT_DECREMENT_LEDS
  | INCREMENT
  | INCREMENT_LEDS
  deriving DecidableEq

/-- The second argument of `pinMode`, as far as the constructors use it. -/
inductive PinModeKind where
  | INPUT_PULLUP
  | OUTPUT
  deriving DecidableEq

/-- The observable calls a `Selector` makes, recorded in program order. -/
inductive Effect where
  /-- The call `pinMode(pin, m)`. -/
  | pinMode (pin : pin_t) (m : PinModeKind)
  /-- The call `digitalWrite(pin, level)`. -/
  | digitalWrite (pin : pin_t) (level : Bool)
  /-- The call `LinkedList::append(this, first, last)`: registration. -/
  | append
  /-- The call of the virtual hook `refreshImpl(newSetting)`. -/
  | refreshImpl (newSetting : Nat)
  deriving DecidableEq

/-- The nested struct `Selector::debouncedButton`: `pin` has no initialiser,
`prevState` starts `HIGH`. -/
structure debouncedButton where
  pin : Option pin_t := none
  prevState : Bool := HIGH
  deriving DecidableEq

/-- The data members of `Selector`, with their default member initialisers.
Members without one (`switchPin`, `ledPin`, `switchPins`, `ledPins`,
`nb_settings`, `mode`, `dbButton1.pin`, `dbButton2.pin`) start `none`. -/
structure Selector where
  Setting : Nat := 0
  switchPin : Option pin_t := none
  ledPin : Option pin_t := none
  switchPins : Option (List pin_t) := none
  ledPins : Option (List pin_t) := none
  switchPinsStorage : Option (List pin_t) := none
  ledPinsStorage : Option (List pin_t) := none
  nb_settings : Option Nat := none
  prevBounceTime : Nat := 0
  dbButton1 : debouncedButton := {}
  dbButton2 : debouncedButton := {}
  mode : Option SelectorMode := none
  deriving DecidableEq

/-- The constant `Selector::debounceTime`. -/
def debounceTime : Nat := 25

/-- The constant `Selector::falling`, `LOW - HIGH`. -/
def falling : Int := 0 - 1

/-- The constant `Selector::rising`, `HIGH - LOW`. -/
def rising : Int := 1 - 0

/-- The loop `for (uint8_t i = 0; i < n; i++) pinMode(pins[i], m);` for
`n ≤ 255`: the calls for `i = 0 .. n - 1` in order, or `none` when some
`pins[i]` does not exist. -/
def pinModeLoop (pins : List pin_t) (m : PinModeKind) : Nat → Option (List Effect)
  | 0 => some []
  | i + 1 => do
    let done ← pinModeLoop pins m i
    let pin ← pins[i]?
    pure (done ++ [Effect.pinMode pin m])

/-! ## The constructors of `Selector.h` -/

/-- `Selector(pin_t switchPin, buttonType buttonType = MOMENTARY)`:
one switch or button, no LEDs. -/
def Selector.ctor_pin (switchPin : pin_t) (bt : buttonType) :
    Option (Selector × List Effect) :=
  let s : Selector := { switchPin := some switchPin }
  let s : Selector :=
    if bt = buttonType.TOGGLE then
      { s with mode := some SelectorMode.SINGLE_SWITCH }
    else
      { s with dbButton1 := { s.dbButton1 with pin := some switchPin },
               mode := some SelectorMode.SINGLE_BUTTON }
  some (s, [Effect.pinMode switchPin PinModeKind.INPUT_PULLUP, Effect.append])

/-- `Selector(pin_t switchPin, pin_t ledPin, buttonType buttonType = MOMENTARY)`:
one switch or button, one LED. -/
def Selector.ctor_pin_led (switchPin ledPin : pin_t) (bt : buttonType) :
    Option (Selector × List Effect) :=
  let s : Selector := { switchPin := some switchPin, ledPin := some ledPin }
  let s : Selector :=
    if bt = buttonType.TOGGLE then
      { s with mode := some SelectorMode.SINGLE_SWITCH_LED }
    else
      { s with dbButton1 := { s.dbButton1 with pin := some switchPin },
               mode := some SelectorMode.SINGLE_BUTTON_LED }
  some (s, [Effect.pinMode switchPin PinModeKind.INPUT_PULLUP,
            Effect.pinMode ledPin PinModeKind.OUTPUT, Effect.append])

/-- `template <size_t N> Selector(const pin_t (&switchPins)[N])`:
multiple buttons, no LEDs. The array is the list of its `N` elements. -/
def Selector.ctor_array (switchPins : List pin_t) : Option (Selector × List Effect) := do
  let nb_settings := switchPins.length % UINT8
  let s : Selector :=
    { switchPins := some switchPins, nb_settings := some nb_settings,
      mode := some SelectorMode.MULTIPLE_BUTTONS }
  let inputs ← pinModeLoop switchPins PinModeKind.INPUT_PULLUP nb_settings
  pure (s, inputs ++ [Effect.append])

/-- `Selector(std::initializer_list<pin_t> switchPins)`:
multiple buttons, no LEDs; the pins are copied to `switchPinsStorage`. -/
def Selector.ctor_list (switchPins : List pin_t) : Option (Selector × List Effect) := do
  let nb_settings := switchPins.length % UINT8
  let s : Selector :=
    { nb_settings := some nb_settings, switchPinsStorage := some switchPins,
      switchPins := some switchPins, mode := some SelectorMode.MULTIPLE_BUTTONS }
  let inputs ← pinModeLoop switchPins PinModeKind.INPUT_PULLUP nb_settings
  pure (s, inputs ++ [Effect.append])

/-- `template <size_t M, size_t N>
Selector(const pin_t (&switchPins)[M], const pin_t (&ledPins)[N])`:
one or multiple buttons, multiple LEDs. -/
def Selector.ctor_array_array (switchPins ledPins : List pin_t) :
    Option (Selector × List Effect) := do
  let M := switchPins.length
  let N := ledPins.length
  let s : Selector :=
    { switchPins := some switchPins, ledPins := some ledPins,
      nb_settings := some (N % UINT8) }
  let (s, inputs) ←
    if M = 1 then do
      let pin0 ← switchPins[0]?
      let s : Selector :=
        { s with dbButton1 := { s.dbButton1 with pin := some pin0 },
                 mode := some SelectorMode.INCREMENT_LEDS }
      pure (s, [Effect.pinMode pin0 PinModeKind.INPUT_PULLUP])
    else if M = 2 then do
      let pin0 ← switchPins[0]?
      let pin1 ← switchPins[1]?
      let s : Selector :=
        { s with dbButton1 := { s.dbButton1 with pin := some pin0 },
                 dbButton2 := { s.dbButton2 with pin := some pin1 },
                 mode := some SelectorMode.INCREMENT_DECREMENT_LEDS }
      pure (s, [Effect.pinMode pin0 PinModeKind.INPUT_PULLUP,
                Effect.pinMode pin1 PinModeKind.INPUT_PULLUP])
    else do
      let nb_settings := (if N < M then N else M) % UINT8
      let s : Selector :=
        { s with mode := some SelectorMode.MULTIPLE_BUTTONS_LEDS,
                 nb_settings := some nb_settings }
      let inputs ← pinModeLoop switchPins PinModeKind.INPUT_PULLUP nb_settings
      pure (s, inputs)
  let nb_settings ← s.nb_settings
  let outputs ← pinModeLoop ledPins PinModeKind.OUTPUT nb_settings
  let led0 ← ledPins[0]?
  pure (s, inputs ++ outputs ++ [Effect.digitalWrite led0 HIGH, Effect.append])

/-- `Selector(std::initializer_list<pin_t> switchPins,
std::initializer_list<pin_t> ledPins)`: one or multiple buttons, multiple
LEDs; the LED pins are copied to `ledPinsStorage`, the switch pins to
`switchPinsStorage` in the last branch only. -/
def Selector.ctor_list_list (switchPins ledPins : List pin_t) :
    Option (Selector × List Effect) := do
  let s : Selector :=
    { nb_settings := some (ledPins.length % UINT8),
      ledPinsStorage := some ledPins, ledPins := some ledPins }
  let (s, inputs) ←
    if switchPins.length = 1 then do
      let pin0 ← switchPins[0]?
      let s : Selector :=
        { s with dbButton1 := { s.dbButton1 with pin := some pin0 },
                 mode := some SelectorMode.INCREMENT_LEDS }
      pure (s, [Effect.pinMode pin0 PinModeKind.INPUT_PULLUP])
    else if switchPins.length = 2 then do
      let pin0 ← switchPins[0]?
      let pin1 ← switchPins[1]?
      let s : Selector :=
        { s with dbButton1 := { s.dbButton1 with pin := some pin0 },
                 dbButton2 := { s.dbButton2 with pin := some pin1 },
                 mode := some SelectorMode.INCREMENT_DECREMENT_LEDS }
      pure (s, [Effect.pinMode pin0 PinModeKind.INPUT_PULLUP,
                Effect.pinMode pin1 PinModeKind.INPUT_PULLUP])
    else do
      let nb_settings :=
        (if switchPins.length < ledPins.length then switchPins.length
         else ledPins.length) % UINT8
      let s : Selector :=
        { s with mode := some SelectorMode.MULTIPLE_BUTTONS_LEDS,
                 switchPinsStorage := some switchPins,
                 switchPins := some switchPins,
                 nb_settings := some nb_settings }
      let inputs ← pinModeLoop switchPins PinModeKind.INPUT_PULLUP nb_settings
      pure (s, inputs)
  let nb_settings ← s.nb_settings
  let outputs ← pinModeLoop ledPins PinModeKind.OUTPUT nb_settings
  let led0 ← ledPins[0]?
  pure (s, inputs ++ outputs ++ [Effect.digitalWrite led0 HIGH, Effect.append])

/-- `Selector(const pin_t (&switchPins)[2], pin_t nb_settings)`:
two buttons (+1, -1), no LEDs. The array is the pair of its elements. -/
def Selector.ctor_array2_count (switchPins : pin_t × pin_t) (nb_settings : Nat) :
    Option (Selector × List Effect) :=
  let s : Selector :=
    { switchPins := some [switchPins.1, switchPins.2],
      nb_settings := some (nb_settings % UINT8),
      dbButton1 := { pin := some switchPins.1 },
      dbButton2 := { pin := some switchPins.2 },
      mode := some SelectorMode.INCREMENT_DECREMENT }
  some (s, [Effect.pinMode switchPins.1 PinModeKind.INPUT_PULLUP,
            Effect.pinMode switchPins.2 PinModeKind.INPUT_PULLUP, Effect.append])

/-- `Selector(const pin_t (&switchPins)[1], pin_t nb_settings)`:
one button (+1), no LEDs. The array is its one element. -/
def Selector.ctor_array1_count (switchPins : pin_t) (nb_settings : Nat) :
    Option (Selector × List Effect) :=
  let s : Selector :=
    { switchPins := some [switchPins],
      nb_settings := some (nb_settings % UINT8),
      dbButton1 := { pin := some switchPins },
      mode := some SelectorMode.INCREMENT }
  some (s, [Effect.pinMode switchPins PinModeKind.INPUT_PULLUP, Effect.append])

/-- `Selector(std::initializer_list<pin_t> switchPins, pin_t nb_settings)`:
one or two buttons (+1, (-1)), no LEDs. There is no `else` branch: for any
other list length neither `mode` nor a button pin is assigned. -/
def Selector.ctor_list_count (switchPins : List pin_t) (nb_settings : Nat) :
    Option (Selector × List Effect) := do
  let s : Selector := { nb_settings := some (nb_settings % UINT8) }
  let (s, inputs) ←
    if switchPins.length = 1 then do
      let pin0 ← switchPins[0]?
      let s : Selector :=
        { s with dbButton1 := { s.dbButton1 with pin := some pin0 },
                 mode := some SelectorMode.INCREMENT }
      pure (s, [Effect.pinMode pin0 PinModeKind.INPUT_PULLUP])
    else if switchPins.length = 2 then do
      let pin0 ← switchPins[0]?
      let pin1 ← switchPins[1]?
      let s : Selector :=
        { s with dbButton1 := { s.dbButton1 with pin := some pin0 },
                 dbButton2 := { s.dbButton2 with pin := some pin1 },
                 mode := some SelectorMode.INCREMENT_DECREMENT }
      pure (s, [Effect.pinMode pin0 PinModeKind.INPUT_PULLUP,
                Effect.pinMode pin1 PinModeKind.INPUT_PULLUP])
    else
      pure (s, ([] : List Effect))
  pure (s, inputs ++ [Effect.append])

/-- A `Selector` as some constructor of `Selector.h` leaves it, with the calls
that constructor made. -/
inductive Constructed : Selector → List Effect → Prop where
  | pin (switchPin : pin_t) (bt : buttonType) {s : Selector} {effs : List Effect} :
      Selector.ctor_pin switchPin bt = some (s, effs) → Constructed s effs
  | pin_led (switchPin ledPin : pin_t) (bt : buttonType) {s : Selector}
      {effs : List Effect} :
      Selector.ctor_pin_led switchPin ledPin bt = some (s, effs) → Constructed s effs
  | array (switchPins : List pin_t) {s : Selector} {effs : List Effect} :
      Selector.ctor_array switchPins = some (s, effs) → Constructed s effs
  | list (switchPins : List pin_t) {s : Selector} {effs : List Effect} :
      Selector.ctor_list switchPins = some (s, effs) → Constructed s effs
  | array_array (switchPins ledPins : List pin_t) {s : Selector} {effs : List Effect} :
      Selector.ctor_array_array switchPins ledPins = some (s, effs) → Constructed s effs
  | list_list (switchPins ledPins : List pin_t) {s : Selector} {effs : List Effect} :
      Selector.ctor_list_list switchPins ledPins = some (s, effs) → Constructed s effs
  | array2_count (switchPins : pin_t × pin_t) (nb_settings : Nat) {s : Selector}
      {effs : List Effect} :
      Selector.ctor_array2_count switchPins nb_settings = some (s, effs) →
        Constructed s effs
  | array1_count (switchPins : pin_t) (nb_settings : Nat) {s : Selector}
      {effs : List Effect} :
      Selector.ctor_array1_count switchPins nb_settings = some (s, effs) →
        Constructed s effs
  | list_count (switchPins : List pin_t) (nb_settings : Nat) {s : Selector}
      {effs : List Effect} :
      Selector.ctor_list_count switchPins nb_settings = some (s, effs) →
        Constructed s effs

/-! ## The polling layer

`Selector.h` only declares `refresh`, `getSetting`, `setSetting`,
`refreshLEDs` and `debounceButton`; their bodies are in `Selector.cpp`. The
definitions of this section follow the specification (§3, §4.1 to §4.4). -/

/-- Modelled from the spec: the result type of the debounce filter, §4.1
`Edge {None, Rising, Falling}` (the body of `Selector::debounceButton` is
missing). -/
inductive Edge where
  | None
  | Rising
  | Falling
  deriving DecidableEq

/-- Modelled from the spec: the Switch of §3, "pin identifier, last accepted
level, timestamp of last accepted transition" (the debounce state kept by the
missing `Selector::debounceButton`). The timestamp is an `unsigned long`. -/
structure Switch where
  pin : pin_t
  level : Bool
  lastAccepted : Nat
  deriving DecidableEq

/-- Modelled from the spec: the wraparound-safe unsigned difference
`now − lastAcceptedTime` of §4.1, computed on `unsigned long` (part of the
missing `Selector::debounceButton`). -/
def elapsed (now lastAcceptedTime : Nat) : Nat :=
  (now % ULONG + ULONG - lastAcceptedTime % ULONG) % ULONG

/-- Modelled from the spec: `poll(switch, rawLevel, now) → Edge` of §4.1, the
missing body of `Selector::debounceButton`. An unchanged level gives `None`;
a change less than `debounceTime` after the last accepted transition is
discarded, the stored level not updated; otherwise the stored level and
timestamp are updated and the edge is `Falling` (the input went `LOW`, the
switch became active) or `Rising`. -/
def DebounceFilter.poll (sw : Switch) (rawLevel : Bool) (now : Nat) : Switch × Edge :=
  if rawLevel = sw.level then (sw, Edge.None)
  else if elapsed now sw.lastAccepted < debounceTime then (sw, Edge.None)
  else ({ sw with level := rawLevel, lastAccepted := now % ULONG },
        if rawLevel = LOW then Edge.Falling else Edge.Rising)

/-- Modelled from the spec: one switch's filter of §4.1 run over a sequence
of readings `(rawLevel, now)`; the result is the final switch record and the
accepted transitions, each with the clock value at which it was accepted, in
order (the repeated calls of the missing `Selector::debounceButton`). -/
def DebounceFilter.run (sw : Switch) : List (Bool × Nat) → Switch × List (Nat × Edge)
  | [] => (sw, [])
  | (rawLevel, now) :: rest =>
    let r := DebounceFilter.poll sw rawLevel now
    let rs := DebounceFilter.run r.1 rest
    (rs.1, if r.2 = Edge.None then rs.2 else (now, r.2) :: rs.2)

/-- The two single-switch and the two single-button modes. -/
def SelectorMode.isSingle : SelectorMode → Bool
  | SINGLE_BUTTON | SINGLE_BUTTON_LED | SINGLE_SWITCH | SINGLE_SWITCH_LED => true
  | _ => false

/-- The five modes with LED feedback. -/
def SelectorMode.ledEnabled : SelectorMode → Bool
  | SINGLE_BUTTON_LED | SINGLE_SWITCH_LED | MULTIPLE_BUTTONS_LEDS
  | INCREMENT_DECREMENT_LEDS | INCREMENT_LEDS => true
  | _ => false

/-- Modelled from the spec: the edge the filter of switch number `i` reported
in this poll, `None` when there is no such switch (input of the missing
`Selector::refresh`). -/
def edgeOf (polled : List (Switch × Edge)) (i : Nat) : Edge :=
  match polled[i]? with
  | some r => r.2
  | none => Edge.None

/-- Modelled from the spec: the index of the first switch that reported a
`Falling` edge in this poll (lowest index first: the fixed precedence that
§4.4 asks for), part of the missing `Selector::refresh`. -/
def firstFalling : List (Switch × Edge) → Option Nat
  | [] => none
  | r :: rest =>
    if r.2 = Edge.Falling then some 0 else (firstFalling rest).map (· + 1)

/-- Modelled from the spec: the ModeDispatcher of §4.2, the mode switch of
the missing `Selector::refresh`: from the mode, the filter results of the
configured switches, the current setting and `settingCount` to the candidate
setting. Single switch: the accepted level of the switch (`1` when active).
Single button: a `Falling` edge toggles between `0` and `1`. Multiple
buttons: a `Falling` edge on switch `i` (of the `settingCount` switches)
selects `i`. Increment: `(setting + 1) mod settingCount`. Increment and
decrement: switch 1 increments, switch 2 decrements by
`(setting + settingCount − 1) mod settingCount`, switch 1 before switch 2. -/
def ModeDispatcher (mode : SelectorMode) (polled : List (Switch × Edge))
    (setting settingCount : Nat) : Nat :=
  match mode with
  | .SINGLE_SWITCH | .SINGLE_SWITCH_LED =>
    match polled[0]? with
    | some r => if r.1.level = LOW then 1 else 0
    | none => setting
  | .SINGLE_BUTTON | .SINGLE_BUTTON_LED =>
    if edgeOf polled 0 = Edge.Falling then (if setting = 0 then 1 else 0) else setting
  | .MULTIPLE_BUTTONS | .MULTIPLE_BUTTONS_LEDS =>
    match firstFalling (polled.take settingCount) with
    | some i => i
    | none => setting
  | .INCREMENT | .INCREMENT_LEDS =>
    if edgeOf polled 0 = Edge.Falling then (setting + 1) % settingCount else setting
  | .INCREMENT_DECREMENT | .INCREMENT_DECREMENT_LEDS =>
    if edgeOf polled 0 = Edge.Falling then (setting + 1) % settingCount
    else if edgeOf polled 1 = Edge.Falling then
      (setting + settingCount - 1) % settingCount
    else setting

/-- Modelled from the spec: `sync(ledSet, newSetting)` of §4.3, the missing
body of `Selector::refreshLEDs`: `ledSet[newSetting]` is set active and every
other LED of the set inactive. -/
def LEDSync (ledSet : List pin_t) (newSetting : Nat) : List Effect :=
  ledSet.enum.map fun r => Effect.digitalWrite r.2 (decide (r.1 = newSetting))

/-- Modelled from the spec: `settingCount` (§3, §4.2) of a `Selector`, which
the missing `Selector::refresh` works with: the single-switch and
single-button modes have the two settings `0` and `1` (their constructors
leave `nb_settings` unassigned), the other modes have `nb_settings`. -/
def Selector.settingCount (s : Selector) : Option Nat :=
  match s.mode with
  | none => none
  | some m => if m.isSingle then some 2 else s.nb_settings

/-- Modelled from the spec: the LED set (§3) of a `Selector`, "length =
number of settings": the first `settingCount` pins of `ledPins`, or the one
`ledPin` (what the missing `Selector::refreshLEDs` writes to). -/
def Selector.ledSet (s : Selector) (settingCount : Nat) : List pin_t :=
  match s.ledPins, s.ledPin with
  | some leds, _ => leds.take settingCount
  | none, some led => [led]
  | none, none => []

/-- Modelled from the spec: the pins of the configured switches (§3: "0–2
action switches or 1..M direct switches"), in wiring order, which the
missing `Selector::refresh` reads. -/
def Selector.configuredSwitches (s : Selector) : List pin_t :=
  match s.mode with
  | none => []
  | some .SINGLE_SWITCH | some .SINGLE_SWITCH_LED
  | some .SINGLE_BUTTON | some .SINGLE_BUTTON_LED => s.switchPin.toList
  | some .INCREMENT | some .INCREMENT_LEDS => s.dbButton1.pin.toList
  | some .INCREMENT_DECREMENT | some .INCREMENT_DECREMENT_LEDS =>
    s.dbButton1.pin.toList ++ s.dbButton2.pin.toList
  | some .MULTIPLE_BUTTONS | some .MULTIPLE_BUTTONS_LEDS =>
    match s.switchPins, s.nb_settings with
    | some pins, some n => pins.take n
    | _, _ => []

/-- Modelled from the spec: a `Selector` together with the debounce state of
its configured switches (§3), the state the missing `Selector::refresh` and
`Selector::setSetting` work on. -/
structure Polled where
  sel : Selector
  switches : List Switch
  deriving DecidableEq

/-- Modelled from the spec: the polled state right after construction: each
configured switch at its released level `HIGH` (the initialiser of
`prevState`) with timestamp `0` (the initialiser of `prevBounceTime`); the
state the missing `Selector::refresh` starts from. -/
def Polled.init (s : Selector) : Polled :=
  { sel := s,
    switches := s.configuredSwitches.map fun pin =>
      { pin := pin, level := HIGH, lastAccepted := 0 } }

/-- Modelled from the spec: the common tail of `poll` and `setSetting` (§4.4),
missing with `Selector.cpp`: when the candidate differs from the stored
setting, the setting is updated, LEDSync runs in the LED-enabled modes and
the extension hook is invoked once with the new setting; otherwise nothing
happens. -/
def Polled.commit (p : Polled) (mode : SelectorMode) (settingCount candidate : Nat) :
    Polled × List Effect :=
  if candidate = p.sel.Setting then (p, [])
  else
    ({ p with sel := { p.sel with Setting := candidate } },
     (if mode.ledEnabled then LEDSync (p.sel.ledSet settingCount) candidate else [])
       ++ [Effect.refreshImpl candidate])

/-- Modelled from the spec: the first step of `poll(now)` (§4.4), "for each
configured switch, run DebounceFilter", with the level read on the switch's
pin (part of the missing `Selector::refresh`). -/
def Polled.pollSwitches (p : Polled) (readLevel : pin_t → Bool) (now : Nat) :
    List (Switch × Edge) :=
  p.switches.map fun sw => DebounceFilter.poll sw (readLevel sw.pin) now

/-- Modelled from the spec: `poll(now)` of §4.4, the missing body of
`Selector::refresh`: every configured switch goes through its debounce
filter, the filter results go to the ModeDispatcher of the configured mode,
and the candidate is committed. The result is `none` when the mode or the
setting count is indeterminate. -/
def Polled.refresh (p : Polled) (readLevel : pin_t → Bool) (now : Nat) :
    Option (Polled × List Effect) := do
  let mode ← p.sel.mode
  let settingCount ← p.sel.settingCount
  let polled := p.pollSwitches readLevel now
  let candidate := ModeDispatcher mode polled p.sel.Setting settingCount
  pure (Polled.commit { p with switches := polled.map Prod.fst } mode settingCount candidate)

/-- Modelled from the spec: `getSetting()` of §4.4, a pure read (the missing
body of `Selector::getSetting`). -/
def Polled.getSetting (p : Polled) : Nat :=
  p.sel.Setting

/-- Modelled from the spec: `setSetting(k)` of §4.4, the missing body of
`Selector::setSetting`: forces the stored setting to `k` under the same
only-on-change rule as `poll`. The requirement `k < settingCount` is the
caller's: see `Reachable`. The result is `none` when the mode or the setting
count is indeterminate. -/
def Polled.setSetting (p : Polled) (k : Nat) : Option (Polled × List Effect) := do
  let mode ← p.sel.mode
  let settingCount ← p.sel.settingCount
  pure (Polled.commit p mode settingCount k)

/-- Modelled from the spec: the states reachable from `p0` by `poll` with any
pin levels and clock value and by `setSetting(k)` with `k < settingCount`
(the two mutating entry points of §5, missing with `Selector.cpp`). -/
inductive Reachable (p0 : Polled) : Polled → Prop where
  | init : Reachable p0 p0
  | refresh {p p' : Polled} {effs : List Effect} (readLevel : pin_t → Bool) (now : Nat) :
      Reachable p0 p → p.refresh readLevel now = some (p', effs) → Reachable p0 p'
  | setSetting {p p' : Polled} {effs : List Effect} {n : Nat} (k : Nat) :
      Reachable p0 p → p.sel.settingCount = some n → k < n →
        p.setSetting k = some (p', effs) → Reachable p0 p'

/-- Modelled from the spec: a run of `poll` calls from `p`, one per reading
`(pin levels, clock value)`; the settings after each poll, in order, or
`none` as soon as a poll has no result (repeated calls of the missing
`Selector::refresh`). -/
def Polled.settingsAlong (p : Polled) : List ((pin_t → Bool) × Nat) → Option (List Nat)
  | [] => some []
  | (readLevel, now) :: rest => do
    let r ← p.refresh readLevel now
    let later ← Polled.settingsAlong r.1 rest
    pure (r.1.sel.Setting :: later)

/-! ## The VU meter of `MIDI_Input_VU.h`

`MCU_VU` derives from `MIDI_Input_Element_ChannelPressure`, declared in
`MIDI_Input_Element.h`, which is not at hand. Of that base class only the
four members that `MCU_VU` reads appear here, each taken as a `uint8_t` like
the constructor arguments of `MCU_VU` and `MCU_VU_LED`; the base-class
constructor is a parameter of the constructors. A method returns `none`
exactly when it accesses `values` or `LEDs` at an index that does not exist
(undefined behaviour in C++), or, for the constructor of `MCU_VU_LED`, when
its `static_assert` rejects the number of LEDs. Each clock reading `millis()`
of one call is the argument `now`. -/

/-- The members of the base class that `MCU_VU` reads (`address`,
`nb_addresses`, `tracksPerBank`, `addressOffset`). -/
structure MIDI_Input_Element where
  address : Nat
  nb_addresses : Nat
  tracksPerBank : Nat
  addressOffset : Nat
  deriving DecidableEq

/-- The class `MCU_VU`: the base-class members and its own members `values`
(the buffer of `nb_addresses` bytes), `decay`, `decayTime`, `prevDecayTime`. -/
structure MCU_VU extends MIDI_Input_Element where
  values : List Nat
  decay : Bool
  decayTime : Nat
  prevDecayTime : Nat := 0
  deriving DecidableEq

/-- The class `MCU_VU_LED`: an `MCU_VU` with the members `length`,
`overloadpin`, `LEDs` and `overload`. -/
structure MCU_VU_LED extends MCU_VU where
  length : Nat
  overloadpin : pin_t
  LEDs : List pin_t
  overload : Bool
  deriving DecidableEq

/-- The constant `MCU_VU_LED::floorCorrection`. -/
def floorCorrection : Nat := 5

/-- Conversion of an `int` to `int8_t` (two's complement wraparound). -/
def int8_t (x : Int) : Int :=
  (x + 128) % 256 - 128

/-- Conversion of an `int` to `uint8_t`. -/
def uint8_t (x : Int) : Nat :=
  (x % 256).toNat

/-- The subtraction `a - b` of two `unsigned long` values. -/
def ulongSub (a b : Nat) : Nat :=
  (a % ULONG + ULONG - b % ULONG) % ULONG

/-- `MCU_VU::initBuffer` on the null buffer of a fresh object: `nb_addresses`
bytes, all zero. -/
def MCU_VU.initBuffer (nb_addresses : Nat) : List Nat :=
  List.replicate nb_addresses 0

/-- `MCU_VU(uint8_t track, uint8_t nb_tracks = 1, bool decay = true,
unsigned int decayTime = 300)`: the base class is constructed from
`(track - 1, 1, nb_tracks, 1)` by its constructor `base`, then the buffer is
initialised. -/
def MCU_VU.ctor (base : Int → Nat → Nat → Nat → MIDI_Input_Element)
    (track nb_tracks : Nat) (decay : Bool) (decayTime : Nat) : MCU_VU :=
  let b := base ((track : Int) - 1) 1 nb_tracks 1
  { toMIDI_Input_Element := b, values := MCU_VU.initBuffer b.nb_addresses,
    decay := decay, decayTime := decayTime }

/-- `MCU_VU::setValue(address, value)`: the low nibble of `values[address]`
is replaced by `value`, the high nibble kept; `prevDecayTime = millis()`. -/
def MCU_VU.setValue (vu : MCU_VU) (address value now : Nat) : Option MCU_VU :=
  match vu.values[address]? with
  | none => none
  | some b =>
    some { vu with values := vu.values.set address ((b &&& 0xF0) ||| value),
                   prevDecayTime := now % ULONG }

/-- `MCU_VU::getValue(address)`: `values[address] & 0x0F`. -/
def MCU_VU.getValue (vu : MCU_VU) (address : Nat) : Option Nat :=
  match vu.values[address]? with
  | none => none
  | some b => some (b &&& 0x0F)

/-- `MCU_VU::setOverload(address)`: `values[address] |= 0xF0`. -/
def MCU_VU.setOverload (vu : MCU_VU) (address : Nat) : Option MCU_VU :=
  match vu.values[address]? with
  | none => none
  | some b => some { vu with values := vu.values.set address (b ||| 0xF0) }

/-- `MCU_VU::clearOverload(address)`: `values[address] &= 0x0F`. -/
def MCU_VU.clearOverload (vu : MCU_VU) (address : Nat) : Option MCU_VU :=
  match vu.values[address]? with
  | none => none
  | some b => some { vu with values := vu.values.set address (b &&& 0x0F) }

/-- `MCU_VU::getOverload(address)`: `values[address] & 0xF0` as a `bool`. -/
def MCU_VU.getOverload (vu : MCU_VU) (address : Nat) : Option Bool :=
  match vu.values[address]? with
  | none => none
  | some b => some (decide (b &&& 0xF0 ≠ 0))

/-- `MCU_VU::matchID(targetID)`: `addressDiff` is `targetID - address`
converted to `int8_t`; the three tests are joined by the short-circuit `&&`,
so the remainder is only taken of a non-negative `addressDiff` by a
`tracksPerBank` that is not zero. -/
def MCU_VU.matchID (vu : MCU_VU) (targetID : Nat) : Bool :=
  let addressDiff : Int := int8_t ((targetID : Int) - (vu.address : Int))
  decide (addressDiff ≥ 0) &&
    (decide (addressDiff < (vu.nb_addresses : Int) * (vu.tracksPerBank : Int)) &&
      decide (Int.tmod addressDiff (vu.tracksPerBank : Int) = 0))

/-- The index of `MCU_VU::updateImpl`,
`uint8_t index = (targetID - this->address) / tracksPerBank`: the difference
and the quotient (rounded towards zero) are taken in `int`, the result is
converted to `uint8_t`. -/
def MCU_VU.index (vu : MCU_VU) (targetID : Nat) : Nat :=
  uint8_t (Int.tdiv ((targetID : Int) - (vu.address : Int)) (vu.tracksPerBank : Int))

/-- The loop `for (uint8_t pin = start; pin < start + n; pin++)
digitalWrite(LEDs[pin], level);` for `start + n ≤ 255`: the calls in order,
or `none` when some `LEDs[pin]` does not exist. -/
def digitalWriteLoop (LEDs : List pin_t) (level : Bool) (start : Nat) :
    Nat → Option (List Effect)
  | 0 => some []
  | n + 1 => do
    let done ← digitalWriteLoop LEDs level start n
    let pin ← LEDs[start + n]?
    pure (done ++ [Effect.digitalWrite pin level])

/-- The number of LEDs that `MCU_VU_LED::display` lights for a peak value,
`(getValue(addressOffset) * length + floorCorrection) / 12`. -/
def MCU_VU_LED.litCount (vu : MCU_VU_LED) (value : Nat) : Nat :=
  (value * vu.length + floorCorrection) / 12

/-- `MCU_VU_LED::display()`: the LEDs below the lit count are written
`HIGH`, the LEDs from the lit count up to `length` are written `LOW`, and
when `overload` is set the overload pin gets the overload flag. -/
def MCU_VU_LED.display (vu : MCU_VU_LED) : Option (List Effect) := do
  let value ← vu.toMCU_VU.getValue vu.addressOffset
  let lit := vu.litCount value
  let high ← digitalWriteLoop vu.LEDs HIGH 0 lit
  let low ← digitalWriteLoop vu.LEDs LOW (lit % UINT8) (vu.length - lit % UINT8)
  let over ←
    if vu.overload then do
      let flag ← vu.toMCU_VU.getOverload vu.addressOffset
      pure [Effect.digitalWrite vu.overloadpin flag]
    else pure []
  pure (high ++ low ++ over)

/-- `template <size_t N> MCU_VU_LED(const pin_t (&LEDs)[N], uint8_t address,
uint8_t nb_addresses, bool decay = true)`: the `MCU_VU` part is constructed
from `(address, nb_addresses, decay)` with the default `decayTime = 300`,
`overloadpin` is `0`, `length` is `N`, `overload` is `false`; the
`static_assert` admits `N ≤ 12` only; the LED pins are copied and each is
made an output. -/
def MCU_VU_LED.ctor (base : Int → Nat → Nat → Nat → MIDI_Input_Element)
    (LEDs : List pin_t) (address nb_addresses : Nat) (decay : Bool) :
    Option (MCU_VU_LED × List Effect) :=
  if LEDs.length ≤ 12 then do
    let vu : MCU_VU_LED :=
      { toMCU_VU := MCU_VU.ctor base address nb_addresses decay 300,
        overloadpin := 0, length := LEDs.length, LEDs := LEDs, overload := false }
    let outputs ← pinModeLoop LEDs PinModeKind.OUTPUT vu.length
    pure (vu, outputs)
  else none

/-- The body of the loop of `MCU_VU::reset` for `i = 0 .. n - 1`:
`setValue(i, 0); clearOverload(i);`. -/
def MCU_VU.resetLoop (vu : MCU_VU) (now : Nat) : Nat → Option MCU_VU
  | 0 => some vu
  | i + 1 => do
    let done ← MCU_VU.resetLoop vu now i
    let cleared ← done.setValue i 0 now
    cleared.clearOverload i

/-- `MCU_VU::reset()` on an `MCU_VU_LED`: every value and overload flag is
cleared, then `display()` runs. -/
def MCU_VU_LED.reset (vu : MCU_VU_LED) (now : Nat) : Option (MCU_VU_LED × List Effect) := do
  let done ← vu.toMCU_VU.resetLoop now vu.nb_addresses
  let vu' : MCU_VU_LED := { vu with toMCU_VU := done }
  let effs ← vu'.display
  pure (vu', effs)

/-- `MCU_VU::updateImpl(midimsg)` on an `MCU_VU_LED`, for the data byte
`midimsg.data1` (a `uint8_t`): the target is the high nibble; without a match
the result is `false` and nothing happens; with a match the low nibble
clears the overload flag (`0xF`), sets it (`0xE`), does nothing (`0xD`) or
is the new peak value, then `display()` runs and the result is `true`. -/
def MCU_VU_LED.updateImpl (vu : MCU_VU_LED) (data1 now : Nat) :
    Option (Bool × MCU_VU_LED × List Effect) :=
  let targetID := (data1 % UINT8) >>> 4
  if vu.toMCU_VU.matchID targetID = false then some (false, vu, [])
  else do
    let index := vu.toMCU_VU.index targetID
    let data := (data1 % UINT8) &&& 0xF
    let done ←
      if data = 0xF then vu.toMCU_VU.clearOverload index
      else if data = 0xE then vu.toMCU_VU.setOverload index
      else if data = 0xD then some vu.toMCU_VU
      else vu.toMCU_VU.setValue index data now
    let vu' : MCU_VU_LED := { vu with toMCU_VU := done }
    let effs ← vu'.display
    pure (true, vu', effs)

/-- The body of the loop of `MCU_VU::update` for `i = 0 .. n - 1`:
`if (getValue(i) > 0) setValue(i, getValue(i) - 1);`. -/
def MCU_VU.decayLoop (vu : MCU_VU) (now : Nat) : Nat → Option MCU_VU
  | 0 => some vu
  | i + 1 => do
    let done ← MCU_VU.decayLoop vu now i
    let value ← done.getValue i
    if value > 0 then done.setValue i (value - 1) now else pure done

/-- `MCU_VU::update()` on an `MCU_VU_LED`: when `decay` is set and more than
`decayTime` has passed since `prevDecayTime`, every positive value is
decremented, `prevDecayTime = millis()` and `display()` runs. -/
def MCU_VU_LED.update (vu : MCU_VU_LED) (now : Nat) : Option (MCU_VU_LED × List Effect) :=
  if vu.decay = true ∧ ulongSub now vu.prevDecayTime > vu.decayTime then do
    let done ← vu.toMCU_VU.decayLoop now vu.nb_addresses
    let vu' : MCU_VU_LED := { vu with toMCU_VU := { done with prevDecayTime := now % ULONG } }
    let effs ← vu'.display
    pure (vu', effs)
  else some (vu, [])

/-- A stored byte of `values` in good shape: a peak value of at most 12 in
the low nibble and the overload flag, all four bits or none, in the high
nibble. -/
def nibblesOk (b : Nat) : Prop :=
  b % 16 ≤ 12 ∧ (b / 16 = 0 ∨ b / 16 = 15)

/-- The states of an `MCU_VU_LED` reachable from `vu0` through `updateImpl`
(any data byte), `update` and `reset`, at any clock readings. -/
inductive VUReachable (vu0 : MCU_VU_LED) : MCU_VU_LED → Prop where
  | init : VUReachable vu0 vu0
  | updateImpl {vu vu' : MCU_VU_LED} {matched : Bool} {effs : List Effect}
      (data1 now : Nat) :
      VUReachable vu0 vu → vu.updateImpl data1 now = some (matched, vu', effs) →
        VUReachable vu0 vu'
  | update {vu vu' : MCU_VU_LED} {effs : List Effect} (now : Nat) :
      VUReachable vu0 vu → vu.update now = some (vu', effs) → VUReachable vu0 vu'
  | reset {vu vu' : MCU_VU_LED} {effs : List Effect} (now : Nat) :
      VUReachable vu0 vu → vu.reset now = some (vu', effs) → VUReachable vu0 vu'

/-! ## Fixtures for the concrete cases -/

/-- The `Selector` that `Selector({5}, 4)` leaves: one increment button on
pin 5, four settings. -/
def fixtureIncrement4 : Selector :=
  { switchPins := some [5], nb_settings := some 4, dbButton1 := { pin := some 5 },
    mode := some SelectorMode.INCREMENT }

/-- The state of `fixtureIncrement4` after one accepted press at clock value
`100`: setting `1`, the switch `LOW` since then. -/
def fixturePressedOnce : Polled :=
  { sel := { fixtureIncrement4 with Setting := 1 },
    switches := [{ pin := 5, level := LOW, lastAccepted := 100 }] }

/-- The `Selector` that `Selector({2, 3, 4}, {10, 11, 12})` leaves: three
buttons, three LEDs. -/
def fixtureThreeButtons : Selector :=
  { nb_settings := some 3, ledPinsStorage := some [10, 11, 12],
    ledPins := some [10, 11, 12], switchPinsStorage := some [2, 3, 4],
    switchPins := some [2, 3, 4], mode := some SelectorMode.MULTIPLE_BUTTONS_LEDS }

/-- The `Selector` that `Selector({2, 3}, 4)` leaves: increment button on
pin 2, decrement button on pin 3, four settings. -/
def fixtureIncrementDecrement4 : Selector :=
  { switchPins := some [2, 3], nb_settings := some 4, dbButton1 := { pin := some 2 },
    dbButton2 := { pin := some 3 }, mode := some SelectorMode.INCREMENT_DECREMENT }

/-- Pin levels with every switch pressed (`LOW`). -/
def allPressed : pin_t → Bool := fun _ => LOW

/-- Pin levels with every switch released (`HIGH`). -/
def allReleased : pin_t → Bool := fun _ => HIGH

/-- Pin levels with the switch on `pin` pressed and every other released. -/
def onlyPressed (pin : pin_t) : pin_t → Bool := fun q => decide (q ≠ pin)

/-- A base-class constructor for the concrete cases: the address and the
number of addresses are stored as given (the address as a `uint8_t`), with
one track per bank and no address offset. -/
def fixtureBase1 : Int → Nat → Nat → Nat → MIDI_Input_Element :=
  fun address _ nb_addresses _ =>
    { address := uint8_t address, nb_addresses := nb_addresses, tracksPerBank := 1,
      addressOffset := 0 }

/-- A base-class constructor for the concrete cases: as `fixtureBase1`, with
eight tracks per bank. -/
def fixtureBase8 : Int → Nat → Nat → Nat → MIDI_Input_Element :=
  fun address _ nb_addresses _ =>
    { address := uint8_t address, nb_addresses := nb_addresses, tracksPerBank := 8,
      addressOffset := 0 }

/-- The object that `MCU_VU_LED({2, 3, 4, 5, 6, 7, 8, 9}, 1, 2)` leaves: eight
LEDs, base address `0`, two addresses, one track per bank. -/
def fixtureMeter : MCU_VU_LED :=
  { address := 0, nb_addresses := 2, tracksPerBank := 1, addressOffset := 0,
    values := [0, 0], decay := true, decayTime := 300, length := 8, overloadpin := 0,
    LEDs := [2, 3, 4, 5, 6, 7, 8, 9], overload := false }

/-- The state of `fixtureMeter` after the message byte `0x0E` (overload of
track 0) and then `0x06` (peak value 6 of track 0) at clock value `10`. -/
def fixtureMeterAtSix : MCU_VU_LED :=
  { fixtureMeter with values := [0xF6, 0], prevDecayTime := 10 }

/-- The object that `MCU_VU_LED({2, 3, 4, 5, 6, 7, 8, 9}, 249, 8)` leaves with
eight tracks per bank: base address `248`, eight addresses. -/
def fixtureMeterAt248 : MCU_VU_LED :=
  { address := 248, nb_addresses := 8, tracksPerBank := 8, addressOffset := 0,
    values := [0, 0, 0, 0, 0, 0, 0, 0], decay := true, decayTime := 300, length := 8,
    overloadpin := 0, LEDs := [2, 3, 4, 5, 6, 7, 8, 9], overload := false }

/-! ## The constructors, branch by branch -/

/-- The `pinMode` loop over the first `n` pins of a list that has them. -/
theorem pinModeLoop_eq (pins : List pin_t) (m : PinModeKind) (n : Nat)
    (h : n ≤ pins.length) :
    pinModeLoop pins m n = some ((pins.take n).map fun p => Effect.pinMode p m) := by
  induction n with
  | zero => rfl
  | succ k ih =>
    have hk : k < pins.length := h
    rw [pinModeLoop, ih (Nat.le_of_lt hk), List.getElem?_eq_getElem hk]
    rw [List.take_succ, List.getElem?_eq_getElem hk]
    simp only [Option.toList_some, List.map_append, List.map_cons, List.map_nil]
    rfl

/-- The conditional expression `a < b ? a : b` is the minimum. -/
theorem min_ite (a b : Nat) : (if a < b then a else b) = min a b := by
  split <;> omega

/-- The array constructor for multiple buttons, in closed form. -/
theorem ctor_array_eq (switchPins : List pin_t) :
    Selector.ctor_array switchPins =
      some ({ switchPins := some switchPins,
              nb_settings := some (switchPins.length % UINT8),
              mode := some SelectorMode.MULTIPLE_BUTTONS },
            (switchPins.take (switchPins.length % UINT8)).map
                (fun p => Effect.pinMode p PinModeKind.INPUT_PULLUP)
              ++ [Effect.append]) := by
  simp only [Selector.ctor_array, pinModeLoop_eq _ _ _ (Nat.mod_le _ _), bind_pure_comp,
    Option.map_eq_map, Option.map_some']

/-- The initializer-list constructor for multiple buttons, in closed form. -/
theorem ctor_list_eq (switchPins : List pin_t) :
    Selector.ctor_list switchPins =
      some ({ nb_settings := some (switchPins.length % UINT8),
              switchPinsStorage := some switchPins, switchPins := some switchPins,
              mode := some SelectorMode.MULTIPLE_BUTTONS },
            (switchPins.take (switchPins.length % UINT8)).map
                (fun p => Effect.pinMode p PinModeKind.INPUT_PULLUP)
              ++ [Effect.append]) := by
  simp only [Selector.ctor_list, pinModeLoop_eq _ _ _ (Nat.mod_le _ _), bind_pure_comp,
    Option.map_eq_map, Option.map_some']

/-- Without a first LED pin the `(switchPins, ledPins)` array constructor
reads `ledPins[0]` out of bounds. -/
theorem ctor_array_array_nil (switchPins : List pin_t) :
    Selector.ctor_array_array switchPins [] = none := by
  simp only [Selector.ctor_array_array]
  split_ifs <;> simp [Option.bind_eq_none, bind]

/-- Without a first LED pin the `(switchPins, ledPins)` initializer-list
constructor reads `ledPins[0]` out of bounds. -/
theorem ctor_list_list_nil (switchPins : List pin_t) :
    Selector.ctor_list_list switchPins [] = none := by
  simp only [Selector.ctor_list_list]
  split_ifs <;> simp [Option.bind_eq_none, bind]

/-- One switch pin and LED pins, array form: `INCREMENT_LEDS`. -/
theorem ctor_array_array_one (pin0 led0 : pin_t) (ledPins : List pin_t)
    (h0 : ledPins[0]? = some led0) :
    Selector.ctor_array_array [pin0] ledPins =
      some ({ switchPins := some [pin0], ledPins := some ledPins,
              nb_settings := some (ledPins.length % UINT8),
              dbButton1 := { pin := some pin0 },
              mode := some SelectorMode.INCREMENT_LEDS },
            [Effect.pinMode pin0 PinModeKind.INPUT_PULLUP]
              ++ (ledPins.take (ledPins.length % UINT8)).map
                (fun p => Effect.pinMode p PinModeKind.OUTPUT)
              ++ [Effect.digitalWrite led0 HIGH, Effect.append]) := by
  simp only [Selector.ctor_array_array, List.length_singleton, if_true, bind_pure_comp,
    Option.bind_eq_bind, Option.pure_def, Option.map_eq_map,
    pinModeLoop_eq _ _ _ (Nat.mod_le _ _), Option.map_some', Option.some_bind,
    List.getElem?_cons_zero, h0]

/-- Two switch pins and LED pins, array form: `INCREMENT_DECREMENT_LEDS`. -/
theorem ctor_array_array_two (pin0 pin1 led0 : pin_t) (ledPins : List pin_t)
    (h0 : ledPins[0]? = some led0) :
    Selector.ctor_array_array [pin0, pin1] ledPins =
      some ({ switchPins := some [pin0, pin1], ledPins := some ledPins,
              nb_settings := some (ledPins.length % UINT8),
              dbButton1 := { pin := some pin0 }, dbButton2 := { pin := some pin1 },
              mode := some SelectorMode.INCREMENT_DECREMENT_LEDS },
            [Effect.pinMode pin0 PinModeKind.INPUT_PULLUP,
              Effect.pinMode pin1 PinModeKind.INPUT_PULLUP]
              ++ (ledPins.take (ledPins.length % UINT8)).map
                (fun p => Effect.pinMode p PinModeKind.OUTPUT)
              ++ [Effect.digitalWrite led0 HIGH, Effect.append]) := by
  have h21 : ¬ ((2 : Nat) = 1) := by decide
  simp only [Selector.ctor_array_array, List.length_cons, List.length_nil, h21, if_true,
    if_false, bind_pure_comp, Nat.zero_add, Nat.reduceAdd,
    Option.bind_eq_bind, Option.pure_def, Option.map_eq_map,
    pinModeLoop_eq _ _ _ (Nat.mod_le _ _), Option.map_some', Option.some_bind,
    List.getElem?_cons_zero, List.getElem?_cons_succ, h0]

/-- Any other number of switch pins and LED pins, array form:
`MULTIPLE_BUTTONS_LEDS` with the smaller of the two lengths. -/
theorem ctor_array_array_multi (switchPins : List pin_t) (led0 : pin_t) (ledPins : List pin_t)
    (h0 : ledPins[0]? = some led0)
    (h1 : switchPins.length ≠ 1) (h2 : switchPins.length ≠ 2) :
    Selector.ctor_array_array switchPins ledPins =
      some ({ switchPins := some switchPins, ledPins := some ledPins,
              nb_settings := some (min ledPins.length switchPins.length % UINT8),
              mode := some SelectorMode.MULTIPLE_BUTTONS_LEDS },
            (switchPins.take (min ledPins.length switchPins.length % UINT8)).map
                (fun p => Effect.pinMode p PinModeKind.INPUT_PULLUP)
              ++ (ledPins.take
                    (min ledPins.length switchPins.length % UINT8)).map
                (fun p => Effect.pinMode p PinModeKind.OUTPUT)
              ++ [Effect.digitalWrite led0 HIGH, Effect.append]) := by
  have hs : min ledPins.length switchPins.length % UINT8 ≤ switchPins.length :=
    le_trans (Nat.mod_le _ _) (Nat.min_le_right _ _)
  have hl : min ledPins.length switchPins.length % UINT8 ≤ ledPins.length :=
    le_trans (Nat.mod_le _ _) (Nat.min_le_left _ _)
  simp only [Selector.ctor_array_array, h1, h2, if_false, min_ite, bind_pure_comp,
    Option.bind_eq_bind, Option.some_bind, Option.pure_def, Option.map_eq_map,
    pinModeLoop_eq _ _ _ hs, pinModeLoop_eq _ _ _ hl, Option.map_some',
    List.getElem?_cons_zero, h0]

/-- One switch pin and LED pins, initializer-list form: `INCREMENT_LEDS`. -/
theorem ctor_list_list_one (pin0 led0 : pin_t) (ledPins : List pin_t)
    (h0 : ledPins[0]? = some led0) :
    Selector.ctor_list_list [pin0] ledPins =
      some ({ nb_settings := some (ledPins.length % UINT8),
              ledPinsStorage := some ledPins, ledPins := some ledPins,
              dbButton1 := { pin := some pin0 },
              mode := some SelectorMode.INCREMENT_LEDS },
            [Effect.pinMode pin0 PinModeKind.INPUT_PULLUP]
              ++ (ledPins.take (ledPins.length % UINT8)).map
                (fun p => Effect.pinMode p PinModeKind.OUTPUT)
              ++ [Effect.digitalWrite led0 HIGH, Effect.append]) := by
  simp only [Selector.ctor_list_list, List.length_singleton, if_true, bind_pure_comp,
    Option.bind_eq_bind, Option.pure_def, Option.map_eq_map,
    pinModeLoop_eq _ _ _ (Nat.mod_le _ _), Option.map_some', Option.some_bind,
    List.getElem?_cons_zero, h0]

/-- Two switch pins and LED pins, initializer-list form:
`INCREMENT_DECREMENT_LEDS`. -/
theorem ctor_list_list_two (pin0 pin1 led0 : pin_t) (ledPins : List pin_t)
    (h0 : ledPins[0]? = some led0) :
    Selector.ctor_list_list [pin0, pin1] ledPins =
      some ({ nb_settings := some (ledPins.length % UINT8),
              ledPinsStorage := some ledPins, ledPins := some ledPins,
              dbButton1 := { pin := some pin0 }, dbButton2 := { pin := some pin1 },
              mode := some SelectorMode.INCREMENT_DECREMENT_LEDS },
            [Effect.pinMode pin0 PinModeKind.INPUT_PULLUP,
              Effect.pinMode pin1 PinModeKind.INPUT_PULLUP]
              ++ (ledPins.take (ledPins.length % UINT8)).map
                (fun p => Effect.pinMode p PinModeKind.OUTPUT)
              ++ [Effect.digitalWrite led0 HIGH, Effect.append]) := by
  have h21 : ¬ ((2 : Nat) = 1) := by decide
  simp only [Selector.ctor_list_list, List.length_cons, List.length_nil, h21, if_true,
    if_false, bind_pure_comp, Nat.zero_add, Nat.reduceAdd,
    Option.bind_eq_bind, Option.pure_def, Option.map_eq_map,
    pinModeLoop_eq _ _ _ (Nat.mod_le _ _), Option.map_some', Option.some_bind,
    List.getElem?_cons_zero, List.getElem?_cons_succ, h0]

/-- Any other number of switch pins and LED pins, initializer-list form:
`MULTIPLE_BUTTONS_LEDS` with the smaller of the two lengths. -/
theorem ctor_list_list_multi (switchPins : List pin_t) (led0 : pin_t) (ledPins : List pin_t)
    (h0 : ledPins[0]? = some led0)
    (h1 : switchPins.length ≠ 1) (h2 : switchPins.length ≠ 2) :
    Selector.ctor_list_list switchPins ledPins =
      some ({ nb_settings := some (min switchPins.length ledPins.length % UINT8),
              ledPinsStorage := some ledPins, ledPins := some ledPins,
              switchPinsStorage := some switchPins, switchPins := some switchPins,
              mode := some SelectorMode.MULTIPLE_BUTTONS_LEDS },
            (switchPins.take (min switchPins.length ledPins.length % UINT8)).map
                (fun p => Effect.pinMode p PinModeKind.INPUT_PULLUP)
              ++ (ledPins.take
                    (min switchPins.length ledPins.length % UINT8)).map
                (fun p => Effect.pinMode p PinModeKind.OUTPUT)
              ++ [Effect.digitalWrite led0 HIGH, Effect.append]) := by
  have hs : min switchPins.length ledPins.length % UINT8 ≤ switchPins.length :=
    le_trans (Nat.mod_le _ _) (Nat.min_le_left _ _)
  have hl : min switchPins.length ledPins.length % UINT8 ≤ ledPins.length :=
    le_trans (Nat.mod_le _ _) (Nat.min_le_right _ _)
  simp only [Selector.ctor_list_list, h1, h2, if_false, min_ite, bind_pure_comp,
    Option.bind_eq_bind, Option.some_bind, Option.pure_def, Option.map_eq_map,
    pinModeLoop_eq _ _ _ hs, pinModeLoop_eq _ _ _ hl, Option.map_some',
    List.getElem?_cons_zero, h0]

/-- One switch pin and a count, initializer-list form: `INCREMENT`. -/
theorem ctor_list_count_one (pin0 : pin_t) (nb_settings : Nat) :
    Selector.ctor_list_count [pin0] nb_settings =
      some ({ nb_settings := some (nb_settings % UINT8),
              dbButton1 := { pin := some pin0 }, mode := some SelectorMode.INCREMENT },
            [Effect.pinMode pin0 PinModeKind.INPUT_PULLUP, Effect.append]) := by
  rfl

/-- Two switch pins and a count, initializer-list form: `INCREMENT_DECREMENT`. -/
theorem ctor_list_count_two (pin0 pin1 : pin_t) (nb_settings : Nat) :
    Selector.ctor_list_count [pin0, pin1] nb_settings =
      some ({ nb_settings := some (nb_settings % UINT8),
              dbButton1 := { pin := some pin0 }, dbButton2 := { pin := some pin1 },
              mode := some SelectorMode.INCREMENT_DECREMENT },
            [Effect.pinMode pin0 PinModeKind.INPUT_PULLUP,
              Effect.pinMode pin1 PinModeKind.INPUT_PULLUP, Effect.append]) := by
  rfl

/-- Any other number of switch pins and a count, initializer-list form: no
branch is taken, `mode` and the button pins stay unassigned, and the
`Selector` is registered all the same. -/
theorem ctor_list_count_other (switchPins : List pin_t) (nb_settings : Nat)
    (h1 : switchPins.length ≠ 1) (h2 : switchPins.length ≠ 2) :
    Selector.ctor_list_count switchPins nb_settings =
      some ({ nb_settings := some (nb_settings % UINT8) }, [Effect.append]) := by
  simp only [Selector.ctor_list_count, h1, h2, if_false]
  rfl

/-- A list of length one is a singleton. -/
theorem list_length_one {α : Type} (l : List α) (h : l.length = 1) : ∃ a, l = [a] :=
  List.length_eq_one.mp h

/-- A list of length two is a pair. -/
theorem list_length_two {α : Type} (l : List α) (h : l.length = 2) : ∃ a b, l = [a, b] :=
  List.length_eq_two.mp h

/-! ## The polling layer: basic facts -/

/-- After a commit the stored setting is the candidate. -/
theorem commit_setting (p : Polled) (m : SelectorMode) (n c : Nat) :
    (p.commit m n c).1.sel.Setting = c := by
  unfold Polled.commit
  split
  · next h => exact h.symm
  · rfl

/-- A commit changes no switch record. -/
theorem commit_switches (p : Polled) (m : SelectorMode) (n c : Nat) :
    (p.commit m n c).1.switches = p.switches := by
  unfold Polled.commit
  split <;> rfl

/-- A commit leaves the mode as it is. -/
theorem commit_mode (p : Polled) (m : SelectorMode) (n c : Nat) :
    (p.commit m n c).1.sel.mode = p.sel.mode := by
  unfold Polled.commit
  split <;> rfl

/-- A commit leaves `nb_settings` as it is. -/
theorem commit_nb_settings (p : Polled) (m : SelectorMode) (n c : Nat) :
    (p.commit m n c).1.sel.nb_settings = p.sel.nb_settings := by
  unfold Polled.commit
  split <;> rfl

/-- A commit leaves the setting count as it is. -/
theorem commit_settingCount (p : Polled) (m : SelectorMode) (n c : Nat) :
    (p.commit m n c).1.sel.settingCount = p.sel.settingCount := by
  unfold Selector.settingCount
  rw [commit_mode, commit_nb_settings]

/-- With a determined mode and setting count, `poll` has a result: the
commit of the dispatcher's candidate. -/
theorem refresh_eq (p : Polled) (readLevel : pin_t → Bool) (now : Nat)
    (m : SelectorMode) (n : Nat) (hm : p.sel.mode = some m)
    (hn : p.sel.settingCount = some n) :
    p.refresh readLevel now =
      some (Polled.commit
        { p with switches := (p.pollSwitches readLevel now).map Prod.fst } m n
        (ModeDispatcher m (p.pollSwitches readLevel now) p.sel.Setting n)) := by
  simp only [Polled.refresh, hm, hn, Option.bind_eq_bind, Option.some_bind, Option.pure_def]

/-- With a determined mode and setting count, `setSetting` has a result. -/
theorem setSetting_eq (p : Polled) (k : Nat) (m : SelectorMode) (n : Nat)
    (hm : p.sel.mode = some m) (hn : p.sel.settingCount = some n) :
    p.setSetting k = some (Polled.commit p m n k) := by
  simp only [Polled.setSetting, hm, hn, Option.bind_eq_bind, Option.some_bind, Option.pure_def]

/-- A setting count is only defined together with a mode. -/
theorem mode_of_settingCount (s : Selector) (n : Nat) (hn : s.settingCount = some n) :
    ∃ m, s.mode = some m ∧ (m.isSingle = true → n = 2) := by
  unfold Selector.settingCount at hn
  cases hmode : s.mode with
  | none => rw [hmode] at hn; cases hn
  | some m =>
    refine ⟨m, rfl, fun hsingle => ?_⟩
    rw [hmode] at hn
    simp only [hsingle, if_true, Option.some.injEq] at hn
    exact hn.symm

/-- The first switch with a `Falling` edge is one of the switches. -/
theorem firstFalling_lt (polled : List (Switch × Edge)) (i : Nat)
    (h : firstFalling polled = some i) : i < polled.length := by
  induction polled generalizing i with
  | nil => cases h
  | cons r rest ih =>
    unfold firstFalling at h
    split at h
    · cases h; simp
    · cases hrest : firstFalling rest with
      | none => rw [hrest] at h; cases h
      | some j =>
        rw [hrest] at h
        cases h
        have := ih j hrest
        simp only [List.length_cons]
        omega

/-- The dispatcher keeps the candidate below the setting count. -/
theorem ModeDispatcher_lt (m : SelectorMode) (polled : List (Switch × Edge))
    (s n : Nat) (hpos : 1 ≤ n) (hs : s < n) (hsingle : m.isSingle = true → n = 2) :
    ModeDispatcher m polled s n < n := by
  have hmod : ∀ x, x % n < n := fun x => Nat.mod_lt x (by omega)
  cases m <;> simp only [ModeDispatcher]
  case SINGLE_BUTTON | SINGLE_BUTTON_LED =>
    have h2 := hsingle rfl
    split_ifs <;> omega
  case SINGLE_SWITCH | SINGLE_SWITCH_LED =>
    have h2 := hsingle rfl
    split
    · split_ifs <;> omega
    · exact hs
  case MULTIPLE_BUTTONS | MULTIPLE_BUTTONS_LEDS =>
    split
    · next i hi =>
      have := firstFalling_lt _ _ hi
      simp only [List.length_take] at this
      omega
    · exact hs
  case INCREMENT | INCREMENT_LEDS =>
    split_ifs
    · exact hmod _
    · exact hs
  case INCREMENT_DECREMENT | INCREMENT_DECREMENT_LEDS =>
    split_ifs
    · exact hmod _
    · exact hmod _
    · exact hs

/-- Every constructor leaves the setting at `0`. -/
theorem constructed_setting (s : Selector) (effs : List Effect) (h : Constructed s effs) :
    s.Setting = 0 := by
  cases h with
  | pin switchPin bt h =>
    unfold Selector.ctor_pin at h
    cases bt <;> (cases h; rfl)
  | pin_led switchPin ledPin bt h =>
    unfold Selector.ctor_pin_led at h
    cases bt <;> (cases h; rfl)
  | array switchPins h => rw [ctor_array_eq] at h; cases h; rfl
  | list switchPins h => rw [ctor_list_eq] at h; cases h; rfl
  | array_array switchPins ledPins h =>
    cases ledPins with
    | nil => rw [ctor_array_array_nil] at h; cases h
    | cons led0 leds =>
      by_cases h1 : switchPins.length = 1
      · obtain ⟨a, rfl⟩ := list_length_one _ h1
        rw [ctor_array_array_one _ led0 _ List.getElem?_cons_zero] at h; cases h; rfl
      · by_cases h2 : switchPins.length = 2
        · obtain ⟨a, b, rfl⟩ := list_length_two _ h2
          rw [ctor_array_array_two _ _ led0 _ List.getElem?_cons_zero] at h; cases h; rfl
        · rw [ctor_array_array_multi _ led0 _ List.getElem?_cons_zero h1 h2] at h; cases h; rfl
  | list_list switchPins ledPins h =>
    cases ledPins with
    | nil => rw [ctor_list_list_nil] at h; cases h
    | cons led0 leds =>
      by_cases h1 : switchPins.length = 1
      · obtain ⟨a, rfl⟩ := list_length_one _ h1
        rw [ctor_list_list_one _ led0 _ List.getElem?_cons_zero] at h; cases h; rfl
      · by_cases h2 : switchPins.length = 2
        · obtain ⟨a, b, rfl⟩ := list_length_two _ h2
          rw [ctor_list_list_two _ _ led0 _ List.getElem?_cons_zero] at h; cases h; rfl
        · rw [ctor_list_list_multi _ led0 _ List.getElem?_cons_zero h1 h2] at h; cases h; rfl
  | array2_count switchPins nb h => cases h; rfl
  | array1_count switchPins nb h => cases h; rfl
  | list_count switchPins nb h =>
    by_cases h1 : switchPins.length = 1
    · obtain ⟨a, rfl⟩ := list_length_one _ h1
      rw [ctor_list_count_one] at h; cases h; rfl
    · by_cases h2 : switchPins.length = 2
      · obtain ⟨a, b, rfl⟩ := list_length_two _ h2
        rw [ctor_list_count_two] at h; cases h; rfl
      · rw [ctor_list_count_other _ _ h1 h2] at h; cases h; rfl

/-- The invariant of the polling layer: from a state with setting count `n`
and a setting below it, every reachable state has the same setting count and
a setting below it. -/
theorem reachable_invariant (p0 p : Polled) (n : Nat) (hn : p0.sel.settingCount = some n)
    (hpos : 1 ≤ n) (h0 : p0.sel.Setting < n) (hr : Reachable p0 p) :
    p.sel.settingCount = some n ∧ p.sel.Setting < n := by
  induction hr with
  | init => exact ⟨hn, h0⟩
  | refresh readLevel now _ hstep ih =>
    obtain ⟨hcount, hlt⟩ := ih
    obtain ⟨m, hm, hsingle⟩ := mode_of_settingCount _ _ hcount
    rw [refresh_eq _ readLevel now m n hm hcount] at hstep
    have hp := congrArg Prod.fst (Option.some.inj hstep)
    simp only at hp
    subst hp
    refine ⟨?_, ?_⟩
    · rw [commit_settingCount]; exact hcount
    · rw [commit_setting]; exact ModeDispatcher_lt m _ _ n hpos hlt hsingle
  | setSetting k _ hcount' hk hstep ih =>
    obtain ⟨hcount, _⟩ := ih
    obtain ⟨m, hm, _⟩ := mode_of_settingCount _ _ hcount
    rw [setSetting_eq _ k m n hm hcount] at hstep
    have hp := congrArg Prod.fst (Option.some.inj hstep)
    simp only at hp
    subst hp
    rw [hcount] at hcount'
    cases hcount'
    refine ⟨?_, ?_⟩
    · rw [commit_settingCount]; exact hcount
    · rw [commit_setting]; exact hk

/-- A `poll` that has a result ran with a determined mode and setting count. -/
theorem refresh_some_inv (p p' : Polled) (effs : List Effect) (readLevel : pin_t → Bool)
    (now : Nat) (h : p.refresh readLevel now = some (p', effs)) :
    ∃ m n, p.sel.mode = some m ∧ p.sel.settingCount = some n := by
  cases hm : p.sel.mode with
  | none => simp [Polled.refresh, hm] at h
  | some m =>
    cases hn : p.sel.settingCount with
    | none => simp [Polled.refresh, hm, hn] at h
    | some n => exact ⟨m, n, rfl, rfl⟩

/-- A `setSetting` that has a result ran with a determined mode and setting
count. -/
theorem setSetting_some_inv (p p' : Polled) (effs : List Effect) (k : Nat)
    (h : p.setSetting k = some (p', effs)) :
    ∃ m n, p.sel.mode = some m ∧ p.sel.settingCount = some n := by
  cases hm : p.sel.mode with
  | none => simp [Polled.setSetting, hm] at h
  | some m =>
    cases hn : p.sel.settingCount with
    | none => simp [Polled.setSetting, hm, hn] at h
    | some n => exact ⟨m, n, rfl, rfl⟩

/-- The mode and `nb_settings` are the same in every reachable state. -/
theorem reachable_config (p0 p : Polled) (hr : Reachable p0 p) :
    p.sel.mode = p0.sel.mode ∧ p.sel.nb_settings = p0.sel.nb_settings := by
  induction hr with
  | init => exact ⟨rfl, rfl⟩
  | refresh readLevel now _ hstep ih =>
    obtain ⟨m, n, hm, hn⟩ := refresh_some_inv _ _ _ _ _ hstep
    rw [refresh_eq _ readLevel now m n hm hn] at hstep
    have hp := congrArg Prod.fst (Option.some.inj hstep)
    simp only at hp
    subst hp
    rw [commit_mode, commit_nb_settings]
    exact ih
  | setSetting k _ _ _ hstep ih =>
    obtain ⟨m, n, hm, hn⟩ := setSetting_some_inv _ _ _ _ hstep
    rw [setSetting_eq _ k m n hm hn] at hstep
    have hp := congrArg Prod.fst (Option.some.inj hstep)
    simp only at hp
    subst hp
    rw [commit_mode, commit_nb_settings]
    exact ih

/-- C1, as amended: for every `Selector` left by a constructor with a
determined setting count `n ≥ 1` (`nb_settings` in the pin-list and count
modes, the two settings `0` and `1` in the single-switch and single-button
modes, whose constructors leave `nb_settings` unassigned), every state
reachable from construction by `poll` (any pin levels, any clock values) and
by `setSetting(k)` with `k < n` keeps the mode and `nb_settings` of
construction and has `Setting < n`; in each such state `poll` and
`setSetting` have a result. -/
theorem C1_setting_below_settingCount (s : Selector) (effs : List Effect) (n : Nat)
    (p : Polled) (hc : Constructed s effs) (hn : s.settingCount = some n) (hpos : 1 ≤ n)
    (hr : Reachable (Polled.init s) p) :
    p.getSetting < n ∧ p.sel.settingCount = some n ∧
      p.sel.mode = s.mode ∧ p.sel.nb_settings = s.nb_settings ∧
      (∀ m, s.mode = some m → m.isSingle = false → s.nb_settings = some n) ∧
      (∀ readLevel now, ∃ p' effs', p.refresh readLevel now = some (p', effs')) ∧
      (∀ k, ∃ p' effs', p.setSetting k = some (p', effs')) := by
  have h0 : (Polled.init s).sel.Setting < n := by
    show s.Setting < n
    rw [constructed_setting s effs hc]
    exact hpos
  obtain ⟨hcount, hlt⟩ := reachable_invariant (Polled.init s) p n hn hpos h0 hr
  obtain ⟨hmode, hnb⟩ := reachable_config (Polled.init s) p hr
  obtain ⟨m, hm, _⟩ := mode_of_settingCount _ _ hcount
  refine ⟨hlt, hcount, hmode, hnb, ?_, ?_, ?_⟩
  · intro m' hm' hsingle
    unfold Selector.settingCount at hn
    rw [hm'] at hn
    simpa [hsingle] using hn
  · intro readLevel now
    exact ⟨_, _, refresh_eq p readLevel now m n hm hcount⟩
  · intro k
    exact ⟨_, _, setSetting_eq p k m n hm hcount⟩

/-- C1 witness: the four-setting increment `Selector` on pin 5 after one
accepted press at clock value 100 has setting 1, below 4. -/
theorem C1_setting_below_settingCount_witness :
    Constructed fixtureIncrement4 [Effect.pinMode 5 PinModeKind.INPUT_PULLUP, Effect.append] ∧
      Reachable (Polled.init fixtureIncrement4) fixturePressedOnce ∧
      fixturePressedOnce.getSetting = 1 ∧ fixturePressedOnce.getSetting < 4 :=
  have hc : Constructed fixtureIncrement4
      [Effect.pinMode 5 PinModeKind.INPUT_PULLUP, Effect.append] :=
    Constructed.array1_count 5 4 rfl
  have hr : Reachable (Polled.init fixtureIncrement4) fixturePressedOnce :=
    Reachable.refresh (fun _ => LOW) 100 Reachable.init
      (by decide : (Polled.init fixtureIncrement4).refresh (fun _ => LOW) 100 =
        some (fixturePressedOnce, [Effect.refreshImpl 1]))
  ⟨hc, hr, by decide,
    (C1_setting_below_settingCount fixtureIncrement4 _ 4 fixturePressedOnce hc (by decide)
      (by decide) hr).1⟩

/-- C1 counterexample: `Selector({2, 3}, 0)` (two buttons, zero settings) is
constructed and registered with `Setting = 0` and `nb_settings = 0`: already
the state right after construction has no `n` with `nb_settings = n` and
`Setting < n`. -/
theorem C1_counterexample :
    ∃ s effs, Selector.ctor_array2_count (2, 3) 0 = some (s, effs) ∧
      Constructed s effs ∧ Effect.append ∈ effs ∧
      Reachable (Polled.init s) (Polled.init s) ∧
      s.mode = some SelectorMode.INCREMENT_DECREMENT ∧ s.nb_settings = some 0 ∧
      ¬ ∃ n, s.nb_settings = some n ∧ (Polled.init s).getSetting < n := by
  refine ⟨_, _, rfl, Constructed.array2_count (2, 3) 0 rfl, by decide, Reachable.init, rfl,
    rfl, ?_⟩
  rintro ⟨n, hn, hlt⟩
  have h0 : n = 0 := by
    have : some (0 : Nat) = some n := hn
    exact (Option.some.inj this).symm
  subst h0
  exact Nat.not_lt_zero _ hlt

/-- C2, as amended: constructing with a setting count of `0` does not fail.
The `(switch pins, nb_settings)` constructors and the switch-pin-list
constructors always create and register a `Selector`; its `nb_settings` is
the given count (the list length) modulo 256, so it is `0` exactly when that
count is a multiple of 256, `0` included; the `(switch pins, LED pins)`
list constructor given no switch pin and at least one LED pin also creates
and registers a `Selector` with `nb_settings = 0`. -/
theorem C2_zero_count_is_accepted :
    (∀ (pins : pin_t × pin_t) (k : Nat), ∃ s effs,
        Selector.ctor_array2_count pins k = some (s, effs) ∧ Effect.append ∈ effs ∧
          s.nb_settings = some (k % UINT8) ∧ (s.nb_settings = some 0 ↔ UINT8 ∣ k)) ∧
    (∀ (pin : pin_t) (k : Nat), ∃ s effs,
        Selector.ctor_array1_count pin k = some (s, effs) ∧ Effect.append ∈ effs ∧
          s.nb_settings = some (k % UINT8) ∧ (s.nb_settings = some 0 ↔ UINT8 ∣ k)) ∧
    (∀ (pins : List pin_t) (k : Nat), ∃ s effs,
        Selector.ctor_list_count pins k = some (s, effs) ∧ Effect.append ∈ effs ∧
          s.nb_settings = some (k % UINT8) ∧ (s.nb_settings = some 0 ↔ UINT8 ∣ k)) ∧
    (∀ pins : List pin_t, ∃ s effs,
        Selector.ctor_array pins = some (s, effs) ∧ Effect.append ∈ effs ∧
          s.nb_settings = some (pins.length % UINT8) ∧
          (s.nb_settings = some 0 ↔ UINT8 ∣ pins.length)) ∧
    (∀ pins : List pin_t, ∃ s effs,
        Selector.ctor_list pins = some (s, effs) ∧ Effect.append ∈ effs ∧
          s.nb_settings = some (pins.length % UINT8) ∧
          (s.nb_settings = some 0 ↔ UINT8 ∣ pins.length)) ∧
    (∀ (led0 : pin_t) (leds : List pin_t), ∃ s effs,
        Selector.ctor_list_list [] (led0 :: leds) = some (s, effs) ∧
          Effect.append ∈ effs ∧ s.nb_settings = some 0) := by
  have hdvd : ∀ k : Nat, (some (k % UINT8) = some 0 ↔ UINT8 ∣ k) := fun k => by
    rw [Option.some.injEq]
    exact Nat.dvd_iff_mod_eq_zero.symm
  refine ⟨?_, ?_, ?_, ?_, ?_, ?_⟩
  · intro pins k
    exact ⟨_, _, rfl, by simp, rfl, hdvd k⟩
  · intro pin k
    exact ⟨_, _, rfl, by simp, rfl, hdvd k⟩
  · intro pins k
    by_cases h1 : pins.length = 1
    · obtain ⟨a, rfl⟩ := list_length_one _ h1
      exact ⟨_, _, ctor_list_count_one a k, by simp, rfl, hdvd k⟩
    · by_cases h2 : pins.length = 2
      · obtain ⟨a, b, rfl⟩ := list_length_two _ h2
        exact ⟨_, _, ctor_list_count_two a b k, by simp, rfl, hdvd k⟩
      · exact ⟨_, _, ctor_list_count_other pins k h1 h2, by simp, rfl, hdvd k⟩
  · intro pins
    exact ⟨_, _, ctor_array_eq pins, by simp, rfl, hdvd _⟩
  · intro pins
    exact ⟨_, _, ctor_list_eq pins, by simp, rfl, hdvd _⟩
  · intro led0 leds
    refine ⟨_, _, ctor_list_list_multi [] led0 (led0 :: leds) List.getElem?_cons_zero
      (by decide) (by decide), by simp, ?_⟩
    simp

/-- C2 counterexample: `Selector({5}, 0)` (one button, zero settings, array
form) and the switch-pin-list constructor given the empty list both create a
`Selector` with `nb_settings = 0` and register it. -/
theorem C2_counterexample :
    (∃ s effs, Selector.ctor_array1_count 5 0 = some (s, effs) ∧
        s.nb_settings = some 0 ∧ Effect.append ∈ effs) ∧
    (∃ s effs, Selector.ctor_list [] = some (s, effs) ∧
        s.nb_settings = some 0 ∧ Effect.append ∈ effs) := by
  refine ⟨⟨_, _, rfl, rfl, by decide⟩, ⟨_, _, rfl, rfl, by decide⟩⟩

/-- C4, as amended: with `M ≥ 3` switch pins and `N ≥ 1` LED pins, `M ≠ N`
and `min(M, N) ≤ 255`, both `(switch pins, LED pins)` constructors truncate
silently: no error is reported, the `Selector` is created in mode
`MULTIPLE_BUTTONS_LEDS` with `nb_settings = min(M, N)`, below the longer of
the two lists, exactly the first `min(M, N)` switch pins are made inputs and
the first `min(M, N)` LED pins outputs, the first LED is driven `HIGH` and
the `Selector` is registered. -/
theorem C4_mismatch_truncates_silently (switchPins ledPins : List pin_t) (led0 : pin_t)
    (hM : 3 ≤ switchPins.length) (h0 : ledPins[0]? = some led0)
    (hne : switchPins.length ≠ ledPins.length)
    (h255 : min switchPins.length ledPins.length ≤ 255) :
    (∃ s, Selector.ctor_array_array switchPins ledPins =
        some (s,
          (switchPins.take (min switchPins.length ledPins.length)).map
              (fun p => Effect.pinMode p PinModeKind.INPUT_PULLUP)
            ++ (ledPins.take (min switchPins.length ledPins.length)).map
              (fun p => Effect.pinMode p PinModeKind.OUTPUT)
            ++ [Effect.digitalWrite led0 HIGH, Effect.append]) ∧
        s.mode = some SelectorMode.MULTIPLE_BUTTONS_LEDS ∧
        s.nb_settings = some (min switchPins.length ledPins.length)) ∧
    (∃ s, Selector.ctor_list_list switchPins ledPins =
        some (s,
          (switchPins.take (min switchPins.length ledPins.length)).map
              (fun p => Effect.pinMode p PinModeKind.INPUT_PULLUP)
            ++ (ledPins.take (min switchPins.length ledPins.length)).map
              (fun p => Effect.pinMode p PinModeKind.OUTPUT)
            ++ [Effect.digitalWrite led0 HIGH, Effect.append]) ∧
        s.mode = some SelectorMode.MULTIPLE_BUTTONS_LEDS ∧
        s.nb_settings = some (min switchPins.length ledPins.length)) ∧
    min switchPins.length ledPins.length < max switchPins.length ledPins.length := by
  have h1 : switchPins.length ≠ 1 := by omega
  have h2 : switchPins.length ≠ 2 := by omega
  have hmod : min switchPins.length ledPins.length % UINT8 =
      min switchPins.length ledPins.length :=
    Nat.mod_eq_of_lt (show _ < 256 by omega)
  have hcomm : min ledPins.length switchPins.length = min switchPins.length ledPins.length :=
    Nat.min_comm _ _
  have ea := ctor_array_array_multi switchPins led0 ledPins h0 h1 h2
  have el := ctor_list_list_multi switchPins led0 ledPins h0 h1 h2
  rw [hcomm, hmod] at ea
  rw [hmod] at el
  exact ⟨⟨_, ea, rfl, rfl⟩, ⟨_, el, rfl, rfl⟩, by omega⟩

/-- C4 witness: four switch pins and three LED pins; the fourth switch pin is
never made an input. -/
theorem C4_mismatch_truncates_silently_witness :
    (∃ s, Selector.ctor_list_list [2, 3, 4, 5] [10, 11, 12] =
        some (s,
          [Effect.pinMode 2 PinModeKind.INPUT_PULLUP, Effect.pinMode 3 PinModeKind.INPUT_PULLUP,
            Effect.pinMode 4 PinModeKind.INPUT_PULLUP, Effect.pinMode 10 PinModeKind.OUTPUT,
            Effect.pinMode 11 PinModeKind.OUTPUT, Effect.pinMode 12 PinModeKind.OUTPUT,
            Effect.digitalWrite 10 HIGH, Effect.append]) ∧
        s.mode = some SelectorMode.MULTIPLE_BUTTONS_LEDS ∧ s.nb_settings = some 3) :=
  (C4_mismatch_truncates_silently [2, 3, 4, 5] [10, 11, 12] 10 (by decide) (by decide)
    (by decide) (by decide)).2.1

/-- C4 counterexample: three switch pins and five LED pins. Neither
constructor reports an error: each produces a registered `Selector` whose
`nb_settings` is clamped to `3`, and the LED pins 13 and 14 are never
configured. -/
theorem C4_counterexample :
    (∃ s effs, Selector.ctor_array_array [2, 3, 4] [10, 11, 12, 13, 14] = some (s, effs) ∧
        s.nb_settings = some 3 ∧ Effect.append ∈ effs ∧
        Effect.pinMode 13 PinModeKind.OUTPUT ∉ effs ∧
        Effect.pinMode 14 PinModeKind.OUTPUT ∉ effs) ∧
    (∃ s effs, Selector.ctor_list_list [2, 3, 4] [10, 11, 12, 13, 14] = some (s, effs) ∧
        s.nb_settings = some 3 ∧ Effect.append ∈ effs ∧
        Effect.pinMode 13 PinModeKind.OUTPUT ∉ effs ∧
        Effect.pinMode 14 PinModeKind.OUTPUT ∉ effs) := by
  refine ⟨⟨_, _, rfl, rfl, by decide, by decide, by decide⟩,
    ⟨_, _, rfl, rfl, by decide, by decide, by decide⟩⟩

/-- C5, as amended: for `M ≥ 3` switch pins and `N ≥ 1` LED pins with
`min(M, N) ≤ 255`, both `(switch pins, LED pins)` constructors have a result
(construction never fails) in mode `MULTIPLE_BUTTONS_LEDS` with
`nb_settings = min(M, N)`. -/
theorem C5_multi_button_setting_count (switchPins ledPins : List pin_t)
    (hM : 3 ≤ switchPins.length) (hN : 1 ≤ ledPins.length)
    (h255 : min switchPins.length ledPins.length ≤ 255) :
    (∃ s effs, Selector.ctor_array_array switchPins ledPins = some (s, effs) ∧
        s.mode = some SelectorMode.MULTIPLE_BUTTONS_LEDS ∧
        s.nb_settings = some (min switchPins.length ledPins.length)) ∧
    (∃ s effs, Selector.ctor_list_list switchPins ledPins = some (s, effs) ∧
        s.mode = some SelectorMode.MULTIPLE_BUTTONS_LEDS ∧
        s.nb_settings = some (min switchPins.length ledPins.length)) := by
  have h1 : switchPins.length ≠ 1 := by omega
  have h2 : switchPins.length ≠ 2 := by omega
  have hmod : min switchPins.length ledPins.length % UINT8 =
      min switchPins.length ledPins.length :=
    Nat.mod_eq_of_lt (show _ < 256 by omega)
  have hcomm : min ledPins.length switchPins.length = min switchPins.length ledPins.length :=
    Nat.min_comm _ _
  cases ledPins with
  | nil => simp at hN
  | cons led0 leds =>
    have ea := ctor_array_array_multi switchPins led0 (led0 :: leds)
      List.getElem?_cons_zero h1 h2
    have el := ctor_list_list_multi switchPins led0 (led0 :: leds)
      List.getElem?_cons_zero h1 h2
    rw [hcomm, hmod] at ea
    rw [hmod] at el
    exact ⟨⟨_, _, ea, rfl, rfl⟩, ⟨_, _, el, rfl, rfl⟩⟩

/-- C5 witness: three switch pins and five LED pins give three settings. -/
theorem C5_multi_button_setting_count_witness :
    (∃ s effs, Selector.ctor_array_array [2, 3, 4] [10, 11, 12, 13, 14] = some (s, effs) ∧
        s.mode = some SelectorMode.MULTIPLE_BUTTONS_LEDS ∧ s.nb_settings = some 3) ∧
    (∃ s effs, Selector.ctor_list_list [2, 3, 4] [10, 11, 12, 13, 14] = some (s, effs) ∧
        s.mode = some SelectorMode.MULTIPLE_BUTTONS_LEDS ∧ s.nb_settings = some 3) :=
  C5_multi_button_setting_count [2, 3, 4] [10, 11, 12, 13, 14] (by decide) (by decide)
    (by decide)

/-- C5 counterexample: 256 switch pins and 256 LED pins (the pin values play
no role; here every switch is on pin 2 and every LED on pin 13). Both
constructors have a result, so construction did not fail, and `nb_settings`,
a `uint8_t`, is `0`, not `min(256, 256) = 256`. -/
theorem C5_counterexample :
    (∃ s effs, Selector.ctor_array_array (List.replicate 256 2) (List.replicate 256 13) =
        some (s, effs) ∧ s.mode = some SelectorMode.MULTIPLE_BUTTONS_LEDS ∧
        s.nb_settings = some 0) ∧
    (∃ s effs, Selector.ctor_list_list (List.replicate 256 2) (List.replicate 256 13) =
        some (s, effs) ∧ s.mode = some SelectorMode.MULTIPLE_BUTTONS_LEDS ∧
        s.nb_settings = some 0) ∧
    min (List.replicate 256 2).length (List.replicate 256 13).length = 256 := by
  have h0 : (List.replicate 256 13)[0]? = some 13 := by
    rw [List.getElem?_replicate]
    rfl
  have h1 : (List.replicate 256 2).length ≠ 1 := by
    rw [List.length_replicate]
    decide
  have h2 : (List.replicate 256 2).length ≠ 2 := by
    rw [List.length_replicate]
    decide
  have ea := ctor_array_array_multi (List.replicate 256 2) 13 (List.replicate 256 13) h0 h1 h2
  have el := ctor_list_list_multi (List.replicate 256 2) 13 (List.replicate 256 13) h0 h1 h2
  refine ⟨⟨_, _, ea, rfl, ?_⟩, ⟨_, _, el, rfl, ?_⟩, ?_⟩
  · simp only [List.length_replicate]
    rfl
  · simp only [List.length_replicate]
    rfl
  · simp only [List.length_replicate]
    rfl

/-- C8: `Selector({2, 3, 4}, 4)`, the initializer-list-and-count constructor
given three switch pins, takes neither branch: the `Selector` is registered
with `nb_settings = 4` while `mode`, `dbButton1.pin` and `dbButton2.pin` were
never assigned and no pin was configured as an input. -/
theorem C8_mode_left_unassigned :
    ∃ s effs, Selector.ctor_list_count [2, 3, 4] 4 = some (s, effs) ∧
      Constructed s effs ∧ s.mode = none ∧ s.dbButton1.pin = none ∧
      s.dbButton2.pin = none ∧ s.nb_settings = some 4 ∧ effs = [Effect.append] :=
  ⟨_, _, rfl, Constructed.list_count [2, 3, 4] 4 rfl, rfl, rfl, rfl, rfl, rfl⟩

/-- In the calls of a `(switch pins, LED pins)` constructor (`pinMode` calls,
then the write to the first LED and the registration) the only
`digitalWrite` is the one of `HIGH` to the first LED. -/
theorem digitalWrite_mem_iff (pre : List Effect) (pins : List pin_t) (n : Nat)
    (led0 pin : pin_t) (level : Bool)
    (hpre : ∀ e ∈ pre, ∃ p m, e = Effect.pinMode p m) :
    Effect.digitalWrite pin level ∈
        pre ++ (pins.take n).map (fun p => Effect.pinMode p PinModeKind.OUTPUT)
          ++ [Effect.digitalWrite led0 HIGH, Effect.append] ↔
      pin = led0 ∧ level = HIGH := by
  constructor
  · intro h
    rcases List.mem_append.mp h with h | h
    · rcases List.mem_append.mp h with h | h
      · obtain ⟨p, m, hp⟩ := hpre _ h
        cases hp
      · obtain ⟨p, _, hp⟩ := List.mem_map.mp h
        cases hp
    · rcases List.mem_cons.mp h with h | h
      · cases h
        exact ⟨rfl, rfl⟩
      · rcases List.mem_cons.mp h with h | h
        · cases h
        · cases h
  · rintro ⟨rfl, rfl⟩
    exact List.mem_append.mpr (Or.inr (List.mem_cons_self _ _))

/-- Every call in a list of `pinMode` calls is a `pinMode` call. -/
theorem pinModes_are_pinModes (pins : List pin_t) (m : PinModeKind) :
    ∀ e ∈ pins.map (fun p => Effect.pinMode p m), ∃ p m', e = Effect.pinMode p m' := by
  intro e he
  obtain ⟨p, _, hp⟩ := List.mem_map.mp he
  exact ⟨p, m, hp.symm⟩

/-- Both `(switch pins, LED pins)` constructors, whatever the number of
switch pins: with a first LED pin they have a result with setting `0` in one
of the three pin-list LED modes, and the calls they make contain exactly one
`digitalWrite`, of `HIGH` to the first LED pin. -/
theorem led_ctor_drives_first_led (switchPins ledPins : List pin_t) (led0 : pin_t)
    (h0 : ledPins[0]? = some led0) (ctor : List pin_t → List pin_t → Option (Selector × List Effect))
    (hctor : ctor = Selector.ctor_array_array ∨ ctor = Selector.ctor_list_list) :
    ∃ s effs, ctor switchPins ledPins = some (s, effs) ∧ s.Setting = 0 ∧
      (s.mode = some SelectorMode.INCREMENT_LEDS ∨
        s.mode = some SelectorMode.INCREMENT_DECREMENT_LEDS ∨
        s.mode = some SelectorMode.MULTIPLE_BUTTONS_LEDS) ∧
      s.ledPins = some ledPins ∧
      Effect.digitalWrite led0 HIGH ∈ effs ∧
      ∀ pin level, Effect.digitalWrite pin level ∈ effs → pin = led0 ∧ level = HIGH := by
  by_cases h1 : switchPins.length = 1
  · obtain ⟨a, rfl⟩ := list_length_one _ h1
    have hpre := pinModes_are_pinModes [a] PinModeKind.INPUT_PULLUP
    rcases hctor with rfl | rfl
    · exact ⟨_, _, ctor_array_array_one a led0 ledPins h0, rfl, Or.inl rfl, rfl,
        (digitalWrite_mem_iff _ _ _ _ _ _ hpre).mpr ⟨rfl, rfl⟩,
        fun _ _ => (digitalWrite_mem_iff _ _ _ _ _ _ hpre).mp⟩
    · exact ⟨_, _, ctor_list_list_one a led0 ledPins h0, rfl, Or.inl rfl, rfl,
        (digitalWrite_mem_iff _ _ _ _ _ _ hpre).mpr ⟨rfl, rfl⟩,
        fun _ _ => (digitalWrite_mem_iff _ _ _ _ _ _ hpre).mp⟩
  · by_cases h2 : switchPins.length = 2
    · obtain ⟨a, b, rfl⟩ := list_length_two _ h2
      have hpre := pinModes_are_pinModes [a, b] PinModeKind.INPUT_PULLUP
      rcases hctor with rfl | rfl
      · exact ⟨_, _, ctor_array_array_two a b led0 ledPins h0, rfl, Or.inr (Or.inl rfl), rfl,
          (digitalWrite_mem_iff _ _ _ _ _ _ hpre).mpr ⟨rfl, rfl⟩,
          fun _ _ => (digitalWrite_mem_iff _ _ _ _ _ _ hpre).mp⟩
      · exact ⟨_, _, ctor_list_list_two a b led0 ledPins h0, rfl, Or.inr (Or.inl rfl), rfl,
          (digitalWrite_mem_iff _ _ _ _ _ _ hpre).mpr ⟨rfl, rfl⟩,
          fun _ _ => (digitalWrite_mem_iff _ _ _ _ _ _ hpre).mp⟩
    · rcases hctor with rfl | rfl
      · exact ⟨_, _, ctor_array_array_multi switchPins led0 ledPins h0 h1 h2, rfl,
          Or.inr (Or.inr rfl), rfl,
          (digitalWrite_mem_iff _ _ _ _ _ _ (pinModes_are_pinModes _ _)).mpr ⟨rfl, rfl⟩,
          fun _ _ => (digitalWrite_mem_iff _ _ _ _ _ _ (pinModes_are_pinModes _ _)).mp⟩
      · exact ⟨_, _, ctor_list_list_multi switchPins led0 ledPins h0 h1 h2, rfl,
          Or.inr (Or.inr rfl), rfl,
          (digitalWrite_mem_iff _ _ _ _ _ _ (pinModes_are_pinModes _ _)).mpr ⟨rfl, rfl⟩,
          fun _ _ => (digitalWrite_mem_iff _ _ _ _ _ _ (pinModes_are_pinModes _ _)).mp⟩

/-- C7, as amended: in the three pin-list LED modes (`INCREMENT_LEDS`,
`INCREMENT_DECREMENT_LEDS`, `MULTIPLE_BUTTONS_LEDS`) construction
unconditionally drives the LED at index 0 of the LED pins `HIGH`, its only
`digitalWrite`, so before any poll the lit LED matches the initial setting
`0`; the two single-LED constructors (`SINGLE_SWITCH_LED`,
`SINGLE_BUTTON_LED`) make the LED pin an output and write nothing to it. -/
theorem C7_first_led_driven_at_construction (switchPins ledPins : List pin_t) (led0 : pin_t)
    (h0 : ledPins[0]? = some led0) :
    (∃ s effs, Selector.ctor_array_array switchPins ledPins = some (s, effs) ∧
        s.Setting = 0 ∧
        (s.mode = some SelectorMode.INCREMENT_LEDS ∨
          s.mode = some SelectorMode.INCREMENT_DECREMENT_LEDS ∨
          s.mode = some SelectorMode.MULTIPLE_BUTTONS_LEDS) ∧
        s.ledPins = some ledPins ∧
        Effect.digitalWrite led0 HIGH ∈ effs ∧
        ∀ pin level, Effect.digitalWrite pin level ∈ effs → pin = led0 ∧ level = HIGH) ∧
    (∃ s effs, Selector.ctor_list_list switchPins ledPins = some (s, effs) ∧
        s.Setting = 0 ∧
        (s.mode = some SelectorMode.INCREMENT_LEDS ∨
          s.mode = some SelectorMode.INCREMENT_DECREMENT_LEDS ∨
          s.mode = some SelectorMode.MULTIPLE_BUTTONS_LEDS) ∧
        s.ledPins = some ledPins ∧
        Effect.digitalWrite led0 HIGH ∈ effs ∧
        ∀ pin level, Effect.digitalWrite pin level ∈ effs → pin = led0 ∧ level = HIGH) ∧
    (∀ (switchPin ledPin : pin_t) (bt : buttonType), ∃ s effs,
        Selector.ctor_pin_led switchPin ledPin bt = some (s, effs) ∧ s.Setting = 0 ∧
        (s.mode = some SelectorMode.SINGLE_SWITCH_LED ∨
          s.mode = some SelectorMode.SINGLE_BUTTON_LED) ∧
        s.ledPin = some ledPin ∧
        Effect.pinMode ledPin PinModeKind.OUTPUT ∈ effs ∧
        ∀ pin level, Effect.digitalWrite pin level ∉ effs) := by
  refine ⟨led_ctor_drives_first_led switchPins ledPins led0 h0 _ (Or.inl rfl),
    led_ctor_drives_first_led switchPins ledPins led0 h0 _ (Or.inr rfl), ?_⟩
  intro switchPin ledPin bt
  cases bt
  · exact ⟨_, _, rfl, rfl, Or.inl rfl, rfl, by simp, by simp⟩
  · exact ⟨_, _, rfl, rfl, Or.inr rfl, rfl, by simp, by simp⟩

/-- C7 witness: one increment button on pin 2 and the LED pins 10, 11, 12:
the calls of construction, with the one `digitalWrite(10, HIGH)`. -/
theorem C7_first_led_driven_at_construction_witness :
    ∃ s effs, Selector.ctor_list_list [2] [10, 11, 12] = some (s, effs) ∧
      s.Setting = 0 ∧
      (s.mode = some SelectorMode.INCREMENT_LEDS ∨
        s.mode = some SelectorMode.INCREMENT_DECREMENT_LEDS ∨
        s.mode = some SelectorMode.MULTIPLE_BUTTONS_LEDS) ∧
      s.ledPins = some [10, 11, 12] ∧
      Effect.digitalWrite 10 HIGH ∈ effs ∧
      ∀ pin level, Effect.digitalWrite pin level ∈ effs → pin = 10 ∧ level = HIGH :=
  (C7_first_led_driven_at_construction [2] [10, 11, 12] 10 (by decide)).2.1

/-- C7 counterexample: the single-LED constructors (button on pin 2, LED on
pin 13, momentary or toggle) are LED-enabled and make exactly the calls
`pinMode(2, INPUT_PULLUP)`, `pinMode(13, OUTPUT)` and the registration: the
LED is never driven. -/
theorem C7_counterexample :
    (∃ s, Selector.ctor_pin_led 2 13 buttonType.MOMENTARY =
        some (s, [Effect.pinMode 2 PinModeKind.INPUT_PULLUP,
          Effect.pinMode 13 PinModeKind.OUTPUT, Effect.append]) ∧
        s.mode = some SelectorMode.SINGLE_BUTTON_LED ∧
        SelectorMode.SINGLE_BUTTON_LED.ledEnabled = true) ∧
    (∃ s, Selector.ctor_pin_led 2 13 buttonType.TOGGLE =
        some (s, [Effect.pinMode 2 PinModeKind.INPUT_PULLUP,
          Effect.pinMode 13 PinModeKind.OUTPUT, Effect.append]) ∧
        s.mode = some SelectorMode.SINGLE_SWITCH_LED ∧
        SelectorMode.SINGLE_SWITCH_LED.ledEnabled = true) ∧
    Effect.digitalWrite 13 HIGH ∉ [Effect.pinMode 2 PinModeKind.INPUT_PULLUP,
      Effect.pinMode 13 PinModeKind.OUTPUT, Effect.append] :=
  ⟨⟨_, rfl, rfl, rfl⟩, ⟨_, rfl, rfl, rfl⟩, by decide⟩

/-- The edge of switch `i + 1` in a list is the edge of switch `i` in its tail. -/
theorem edgeOf_cons_succ (r : Switch × Edge) (rest : List (Switch × Edge)) (i : Nat) :
    edgeOf (r :: rest) (i + 1) = edgeOf rest i := by
  simp only [edgeOf, List.getElem?_cons_succ]

/-- The edge of switch `0` is the edge of the head. -/
theorem edgeOf_cons_zero (r : Switch × Edge) (rest : List (Switch × Edge)) :
    edgeOf (r :: rest) 0 = r.2 := by
  simp only [edgeOf, List.getElem?_cons_zero]

/-- Among the first `n` switches, switch `j < n` has the edge it has. -/
theorem edgeOf_take (polled : List (Switch × Edge)) (n j : Nat) (hj : j < n) :
    edgeOf (polled.take n) j = edgeOf polled j := by
  simp only [edgeOf, List.getElem?_take, hj, if_true]

/-- The lowest-numbered switch with a `Falling` edge is the one the
dispatcher finds. -/
theorem firstFalling_eq (polled : List (Switch × Edge)) (i : Nat)
    (hi : edgeOf polled i = Edge.Falling)
    (hlow : ∀ j, j < i → edgeOf polled j ≠ Edge.Falling) :
    firstFalling polled = some i := by
  induction polled generalizing i with
  | nil => simp [edgeOf] at hi
  | cons r rest ih =>
    cases i with
    | zero =>
      rw [edgeOf_cons_zero] at hi
      simp only [firstFalling, hi, if_true]
    | succ k =>
      have hr : r.2 ≠ Edge.Falling := by
        have := hlow 0 (Nat.succ_pos k)
        rwa [edgeOf_cons_zero] at this
      rw [edgeOf_cons_succ] at hi
      have hrest := ih k hi (fun j hj => by
        have := hlow (j + 1) (Nat.succ_lt_succ hj)
        rwa [edgeOf_cons_succ] at this)
      simp only [firstFalling, hr, if_false, hrest, Option.map_some']

/-- C9, as amended: for every `n` with `3 ≤ n ≤ 255`, constructing a
`Selector` from `n` button pins and `n` LED pins (array or initializer-list
form) yields mode `MULTIPLE_BUTTONS_LEDS` with `n` settings, with the `n`
button pins as `switchPins` and the `n` LED pins as `ledPins`, button `i`
being switch number `i` of the polled state; and in that mode a poll in
which button `i < n` has an accepted press (a `Falling` edge) and no
lower-numbered button has one selects setting `i`. -/
theorem C9_equal_lists_give_multiple_buttons (switchPins ledPins : List pin_t) (n : Nat)
    (hsw : switchPins.length = n) (hled : ledPins.length = n) (h3 : 3 ≤ n)
    (h255 : n ≤ 255) :
    (∃ s effs, Selector.ctor_array_array switchPins ledPins = some (s, effs) ∧
        s.mode = some SelectorMode.MULTIPLE_BUTTONS_LEDS ∧ s.nb_settings = some n ∧
        s.switchPins = some switchPins ∧ s.ledPins = some ledPins ∧
        (Polled.init s).switches.map Switch.pin = switchPins) ∧
    (∃ s effs, Selector.ctor_list_list switchPins ledPins = some (s, effs) ∧
        s.mode = some SelectorMode.MULTIPLE_BUTTONS_LEDS ∧ s.nb_settings = some n ∧
        s.switchPins = some switchPins ∧ s.ledPins = some ledPins ∧
        (Polled.init s).switches.map Switch.pin = switchPins) ∧
    (∀ (p : Polled) (readLevel : pin_t → Bool) (now i : Nat),
        p.sel.mode = some SelectorMode.MULTIPLE_BUTTONS_LEDS →
        p.sel.nb_settings = some n → i < n →
        edgeOf (p.pollSwitches readLevel now) i = Edge.Falling →
        (∀ j, j < i → edgeOf (p.pollSwitches readLevel now) j ≠ Edge.Falling) →
        ∃ p' effs, p.refresh readLevel now = some (p', effs) ∧ p'.getSetting = i) := by
  have h1 : switchPins.length ≠ 1 := by omega
  have h2 : switchPins.length ≠ 2 := by omega
  have hmin1 : min ledPins.length switchPins.length % UINT8 = n := by
    rw [hsw, hled, Nat.min_self]
    exact Nat.mod_eq_of_lt (show n < 256 by omega)
  have hmin2 : min switchPins.length ledPins.length % UINT8 = n := by
    rw [hsw, hled, Nat.min_self]
    exact Nat.mod_eq_of_lt (show n < 256 by omega)
  cases hl : ledPins with
  | nil => rw [hl] at hled; simp at hled; omega
  | cons led0 leds =>
    have h0 : ledPins[0]? = some led0 := by rw [hl]; exact List.getElem?_cons_zero
    have ea := ctor_array_array_multi switchPins led0 ledPins h0 h1 h2
    have el := ctor_list_list_multi switchPins led0 ledPins h0 h1 h2
    rw [hmin1] at ea
    rw [hmin2] at el
    rw [← hl]
    have htsw : switchPins.take n = switchPins := List.take_of_length_le (by omega)
    have hpins : ∀ pins : List pin_t, (pins.map fun pin : pin_t =>
        ({ pin := pin, level := HIGH, lastAccepted := 0 } : Switch)).map Switch.pin = pins := by
      intro pins
      rw [List.map_map]
      exact List.map_id _
    refine ⟨⟨_, _, ea, rfl, rfl, rfl, rfl, ?_⟩, ⟨_, _, el, rfl, rfl, rfl, rfl, ?_⟩, ?_⟩
    · simp only [Polled.init, Selector.configuredSwitches, htsw]
      exact hpins switchPins
    · simp only [Polled.init, Selector.configuredSwitches, htsw]
      exact hpins switchPins
    · intro p readLevel now i hm hn hi hfall hlow
      have hcount : p.sel.settingCount = some n := by
        simp only [Selector.settingCount, hm, SelectorMode.isSingle, hn]
        rfl
      refine ⟨_, _, refresh_eq p readLevel now _ n hm hcount, ?_⟩
      show (Polled.commit _ _ _ _).1.sel.Setting = i
      rw [commit_setting]
      have hff : firstFalling ((p.pollSwitches readLevel now).take n) = some i :=
        firstFalling_eq _ i (by rw [edgeOf_take _ _ _ hi]; exact hfall)
          (fun j hj => by rw [edgeOf_take _ _ _ (Nat.lt_trans hj hi)]; exact hlow j hj)
      simp only [ModeDispatcher, hff]

/-- C9 witness: three buttons on pins 2, 3, 4 and three LEDs on pins 10, 11,
12; from the state right after construction, a press of the button on pin 4
(number 2) at clock value 100 selects setting 2. -/
theorem C9_equal_lists_give_multiple_buttons_witness :
    (∃ s effs, Selector.ctor_list_list [2, 3, 4] [10, 11, 12] = some (s, effs) ∧
        s.mode = some SelectorMode.MULTIPLE_BUTTONS_LEDS ∧ s.nb_settings = some 3 ∧
        s.switchPins = some [2, 3, 4] ∧ s.ledPins = some [10, 11, 12] ∧
        (Polled.init s).switches.map Switch.pin = [2, 3, 4]) ∧
    (Selector.ctor_list_list [2, 3, 4] [10, 11, 12]).map Prod.fst =
      some fixtureThreeButtons ∧
    (∃ p' effs, (Polled.init fixtureThreeButtons).refresh (onlyPressed 4) 100 =
        some (p', effs) ∧ p'.getSetting = 2) :=
  have h := C9_equal_lists_give_multiple_buttons [2, 3, 4] [10, 11, 12] 3 rfl rfl
    (by decide) (by decide)
  ⟨h.2.1, by decide,
    h.2.2 (Polled.init fixtureThreeButtons) (onlyPressed 4) 100 2 rfl rfl
      (by decide) (by decide) (by decide)⟩

/-- C9 counterexample: with `n = 2`, two button pins and two LED pins, both
constructors yield `INCREMENT_DECREMENT_LEDS`, not `MULTIPLE_BUTTONS_LEDS`. -/
theorem C9_counterexample :
    (∃ s effs, Selector.ctor_array_array [2, 3] [10, 11] = some (s, effs) ∧
        s.mode = some SelectorMode.INCREMENT_DECREMENT_LEDS ∧
        s.mode ≠ some SelectorMode.MULTIPLE_BUTTONS_LEDS) ∧
    (∃ s effs, Selector.ctor_list_list [2, 3] [10, 11] = some (s, effs) ∧
        s.mode = some SelectorMode.INCREMENT_DECREMENT_LEDS ∧
        s.mode ≠ some SelectorMode.MULTIPLE_BUTTONS_LEDS) :=
  ⟨⟨_, _, rfl, rfl, by decide⟩, ⟨_, _, rfl, rfl, by decide⟩⟩

/-- C10, as amended: for a count `k ≤ 255` and `n` LED pins with
`1 ≤ n ≤ 255`, the increment-style constructors select mode and setting
count by argument shape: one switch pin with the count `k` gives `INCREMENT`
with `nb_settings = k`; two switch pins with the count `k` give
`INCREMENT_DECREMENT` with `nb_settings = k`; one switch pin with the `n` LED
pins gives `INCREMENT_LEDS` with `nb_settings = n`; two switch pins with the
`n` LED pins give `INCREMENT_DECREMENT_LEDS` with `nb_settings = n`. The
first pin becomes `dbButton1.pin` (the increment button), the second
`dbButton2.pin` (the decrement button). -/
theorem C10_increment_constructor_shapes (pin0 pin1 : pin_t) (k : Nat)
    (ledPins : List pin_t) (hk : k ≤ 255) (hn1 : 1 ≤ ledPins.length)
    (hn255 : ledPins.length ≤ 255) :
    (∃ s effs, Selector.ctor_array1_count pin0 k = some (s, effs) ∧
        s.mode = some SelectorMode.INCREMENT ∧ s.nb_settings = some k ∧
        s.dbButton1.pin = some pin0) ∧
    (∃ s effs, Selector.ctor_list_count [pin0] k = some (s, effs) ∧
        s.mode = some SelectorMode.INCREMENT ∧ s.nb_settings = some k ∧
        s.dbButton1.pin = some pin0) ∧
    (∃ s effs, Selector.ctor_array2_count (pin0, pin1) k = some (s, effs) ∧
        s.mode = some SelectorMode.INCREMENT_DECREMENT ∧ s.nb_settings = some k ∧
        s.dbButton1.pin = some pin0 ∧ s.dbButton2.pin = some pin1) ∧
    (∃ s effs, Selector.ctor_list_count [pin0, pin1] k = some (s, effs) ∧
        s.mode = some SelectorMode.INCREMENT_DECREMENT ∧ s.nb_settings = some k ∧
        s.dbButton1.pin = some pin0 ∧ s.dbButton2.pin = some pin1) ∧
    (∃ s effs, Selector.ctor_array_array [pin0] ledPins = some (s, effs) ∧
        s.mode = some SelectorMode.INCREMENT_LEDS ∧
        s.nb_settings = some ledPins.length ∧
        s.dbButton1.pin = some pin0) ∧
    (∃ s effs, Selector.ctor_list_list [pin0] ledPins = some (s, effs) ∧
        s.mode = some SelectorMode.INCREMENT_LEDS ∧
        s.nb_settings = some ledPins.length ∧
        s.dbButton1.pin = some pin0) ∧
    (∃ s effs, Selector.ctor_array_array [pin0, pin1] ledPins = some (s, effs) ∧
        s.mode = some SelectorMode.INCREMENT_DECREMENT_LEDS ∧
        s.nb_settings = some ledPins.length ∧
        s.dbButton1.pin = some pin0 ∧ s.dbButton2.pin = some pin1) ∧
    (∃ s effs, Selector.ctor_list_list [pin0, pin1] ledPins = some (s, effs) ∧
        s.mode = some SelectorMode.INCREMENT_DECREMENT_LEDS ∧
        s.nb_settings = some ledPins.length ∧
        s.dbButton1.pin = some pin0 ∧ s.dbButton2.pin = some pin1) := by
  have hkmod : k % UINT8 = k := Nat.mod_eq_of_lt (show k < 256 by omega)
  have hnmod : ledPins.length % UINT8 = ledPins.length :=
    Nat.mod_eq_of_lt (show _ < 256 by omega)
  cases hl : ledPins with
  | nil => rw [hl] at hn1; simp at hn1
  | cons led0 leds =>
    have h0 : ledPins[0]? = some led0 := by rw [hl]; exact List.getElem?_cons_zero
    have e1 := ctor_list_count_one pin0 k
    have e2 := ctor_list_count_two pin0 pin1 k
    have e3 := ctor_array_array_one pin0 led0 ledPins h0
    have e4 := ctor_list_list_one pin0 led0 ledPins h0
    have e5 := ctor_array_array_two pin0 pin1 led0 ledPins h0
    have e6 := ctor_list_list_two pin0 pin1 led0 ledPins h0
    have e7 : Selector.ctor_array1_count pin0 k = some (_, _) := rfl
    have e8 : Selector.ctor_array2_count (pin0, pin1) k = some (_, _) := rfl
    rw [hkmod] at e1 e2 e7 e8
    rw [hnmod] at e3 e4 e5 e6
    rw [← hl]
    exact ⟨⟨_, _, e7, rfl, rfl, rfl⟩, ⟨_, _, e1, rfl, rfl, rfl⟩,
      ⟨_, _, e8, rfl, rfl, rfl, rfl⟩, ⟨_, _, e2, rfl, rfl, rfl, rfl⟩,
      ⟨_, _, e3, rfl, rfl, rfl⟩, ⟨_, _, e4, rfl, rfl, rfl⟩,
      ⟨_, _, e5, rfl, rfl, rfl, rfl⟩, ⟨_, _, e6, rfl, rfl, rfl, rfl⟩⟩

/-- C10 witness: buttons on pins 2 and 3, the count 4, and the three LED pins
10, 11, 12; here the two-button form with LEDs. -/
theorem C10_increment_constructor_shapes_witness :
    ∃ s effs, Selector.ctor_list_list [2, 3] [10, 11, 12] = some (s, effs) ∧
      s.mode = some SelectorMode.INCREMENT_DECREMENT_LEDS ∧ s.nb_settings = some 3 ∧
      s.dbButton1.pin = some 2 ∧ s.dbButton2.pin = some 3 :=
  (C10_increment_constructor_shapes 2 3 4 [10, 11, 12] (by decide) (by decide)
    (by decide)).2.2.2.2.2.2.2

/-- C10 counterexample: one switch pin with 256 LED pins (the pin values play
no role; here every LED is on pin 13). Both constructors give
`INCREMENT_LEDS` with `nb_settings = 0`, a `uint8_t`, not `256`. -/
theorem C10_counterexample :
    (∃ s effs, Selector.ctor_array_array [2] (List.replicate 256 13) = some (s, effs) ∧
        s.mode = some SelectorMode.INCREMENT_LEDS ∧ s.nb_settings = some 0) ∧
    (∃ s effs, Selector.ctor_list_list [2] (List.replicate 256 13) = some (s, effs) ∧
        s.mode = some SelectorMode.INCREMENT_LEDS ∧ s.nb_settings = some 0) ∧
    (List.replicate 256 13).length = 256 := by
  have h0 : (List.replicate 256 13)[0]? = some 13 := by
    rw [List.getElem?_replicate]
    rfl
  have ea := ctor_array_array_one 2 13 (List.replicate 256 13) h0
  have el := ctor_list_list_one 2 13 (List.replicate 256 13) h0
  refine ⟨⟨_, _, ea, rfl, ?_⟩, ⟨_, _, el, rfl, ?_⟩, ?_⟩
  · simp only [List.length_replicate]
    rfl
  · simp only [List.length_replicate]
    rfl
  · simp only [List.length_replicate]

/-- Reducing the earlier timestamp to an `unsigned long` does not change the
elapsed time. -/
theorem elapsed_mod_right (now last : Nat) : elapsed now (last % ULONG) = elapsed now last := by
  simp only [elapsed, Nat.mod_mod]

/-- On a clock that does not run backwards, the wraparound-safe difference is
at most the time that really passed. -/
theorem elapsed_le_sub (now last : Nat) (h : last ≤ now) : elapsed now last ≤ now - last := by
  simp only [elapsed, ULONG]
  omega

/-- A change that comes too early is dropped: the switch record is returned
as it was, with no edge. -/
theorem poll_dropped (sw : Switch) (rawLevel : Bool) (now : Nat)
    (h : rawLevel ≠ sw.level → elapsed now sw.lastAccepted < debounceTime) :
    DebounceFilter.poll sw rawLevel now = (sw, Edge.None) := by
  unfold DebounceFilter.poll
  by_cases hraw : rawLevel = sw.level
  · simp only [hraw, if_true]
  · simp only [hraw, if_false, h hraw, if_true]

/-- The filter reports no edge exactly when it leaves the switch record as it
was; an edge is reported only for a changed level at least `debounceTime`
after the last accepted transition, and the new timestamp is the clock
value. -/
theorem poll_cases (sw : Switch) (rawLevel : Bool) (now : Nat) :
    (DebounceFilter.poll sw rawLevel now = (sw, Edge.None)) ∨
    ((DebounceFilter.poll sw rawLevel now).2 ≠ Edge.None ∧ rawLevel ≠ sw.level ∧
      debounceTime ≤ elapsed now sw.lastAccepted ∧
      (DebounceFilter.poll sw rawLevel now).1.level = rawLevel ∧
      (DebounceFilter.poll sw rawLevel now).1.lastAccepted = now % ULONG) := by
  by_cases hraw : rawLevel = sw.level
  · left
    exact poll_dropped sw rawLevel now (fun h => absurd hraw h)
  · by_cases hel : elapsed now sw.lastAccepted < debounceTime
    · left
      exact poll_dropped sw rawLevel now (fun _ => hel)
    · right
      have hp : DebounceFilter.poll sw rawLevel now =
          ({ sw with level := rawLevel, lastAccepted := now % ULONG },
            if rawLevel = LOW then Edge.Falling else Edge.Rising) := by
        unfold DebounceFilter.poll
        simp only [hraw, if_false, hel]
      rw [hp]
      refine ⟨?_, hraw, Nat.le_of_not_lt hel, rfl, rfl⟩
      cases rawLevel <;> simp

/-- In wraparound arithmetic, for every sequence of readings: each accepted
transition comes at least `debounceTime` after the one accepted before it. -/
theorem run_chain_elapsed (sw : Switch) (inputs : List (Bool × Nat)) :
    List.Chain (fun t1 t2 => debounceTime ≤ elapsed t2 t1) sw.lastAccepted
      ((DebounceFilter.run sw inputs).2.map Prod.fst) := by
  induction inputs generalizing sw with
  | nil => exact List.Chain.nil
  | cons x rest ih =>
    obtain ⟨rawLevel, now⟩ := x
    rcases poll_cases sw rawLevel now with h | ⟨hedge, _, hel, _, hts⟩
    · simp only [DebounceFilter.run, h, if_true]
      exact ih sw
    · simp only [DebounceFilter.run, hedge, if_false, List.map_cons]
      refine List.Chain.cons hel ?_
      have := ih (DebounceFilter.poll sw rawLevel now).1
      rw [hts] at this
      cases hacc : (DebounceFilter.run (DebounceFilter.poll sw rawLevel now).1 rest).2.map
          Prod.fst with
      | nil => exact List.Chain.nil
      | cons t ts =>
        rw [hacc] at this
        cases this with
        | cons h1 h2 =>
          rw [elapsed_mod_right] at h1
          exact List.Chain.cons h1 h2

/-- On a clock that does not run backwards: after a transition accepted at
time `t0`, every later accepted transition is at least `debounceTime` after
the one before it, the first of them after `t0`. -/
theorem run_chain_gap (sw : Switch) (inputs : List (Bool × Nat)) (t0 : Nat)
    (hlast : sw.lastAccepted = t0 % ULONG) (hge : ∀ x ∈ inputs, t0 ≤ x.2)
    (hclock : List.Pairwise (· ≤ ·) (inputs.map Prod.snd)) :
    List.Chain (fun t1 t2 => t1 + debounceTime ≤ t2) t0
      ((DebounceFilter.run sw inputs).2.map Prod.fst) := by
  induction inputs generalizing sw t0 with
  | nil => exact List.Chain.nil
  | cons x rest ih =>
    obtain ⟨rawLevel, now⟩ := x
    have hnow : t0 ≤ now := hge (rawLevel, now) (List.mem_cons_self _ _)
    rw [List.map_cons, List.pairwise_cons] at hclock
    obtain ⟨hrest, hclock⟩ := hclock
    rcases poll_cases sw rawLevel now with h | ⟨hedge, _, hel, _, hts⟩
    · simp only [DebounceFilter.run, h, if_true]
      exact ih sw t0 hlast (fun x hx => hge x (List.mem_cons_of_mem _ hx)) hclock
    · simp only [DebounceFilter.run, hedge, if_false, List.map_cons]
      rw [hlast, elapsed_mod_right] at hel
      have hgap : t0 + debounceTime ≤ now := by
        have := elapsed_le_sub now t0 hnow
        omega
      refine List.Chain.cons hgap ?_
      exact ih _ now hts
        (fun x hx => hrest x.2 (List.mem_map_of_mem Prod.snd hx)) hclock

/-- On a clock that does not run backwards, any two accepted transitions of
a switch are at least `debounceTime` apart. -/
theorem run_pairwise_gap (sw : Switch) (inputs : List (Bool × Nat))
    (hclock : List.Pairwise (· ≤ ·) (inputs.map Prod.snd)) :
    List.Pairwise (fun t1 t2 => t1 + debounceTime ≤ t2)
      ((DebounceFilter.run sw inputs).2.map Prod.fst) := by
  induction inputs generalizing sw with
  | nil => exact List.Pairwise.nil
  | cons x rest ih =>
    obtain ⟨rawLevel, now⟩ := x
    rw [List.map_cons, List.pairwise_cons] at hclock
    obtain ⟨hrest, hclock⟩ := hclock
    rcases poll_cases sw rawLevel now with h | ⟨hedge, _, _, _, hts⟩
    · simp only [DebounceFilter.run, h, if_true]
      exact ih sw hclock
    · simp only [DebounceFilter.run, hedge, if_false, List.map_cons]
      have hchain := run_chain_gap (DebounceFilter.poll sw rawLevel now).1 rest now hts
        (fun x hx => hrest x.2 (List.mem_map_of_mem Prod.snd hx)) hclock
      haveI : IsTrans Nat (fun t1 t2 => t1 + debounceTime ≤ t2) :=
        ⟨fun a b c h1 h2 => by simp only [debounceTime] at *; omega⟩
      exact List.chain_iff_pairwise.mp hchain

/-- When every configured switch is quiet or bounces too early, every filter
returns its switch record as it was, with no edge. -/
theorem pollSwitches_quiet (p : Polled) (readLevel : pin_t → Bool) (now : Nat)
    (h : ∀ sw ∈ p.switches, readLevel sw.pin ≠ sw.level →
      elapsed now sw.lastAccepted < debounceTime) :
    p.pollSwitches readLevel now = p.switches.map fun sw => (sw, Edge.None) := by
  unfold Polled.pollSwitches
  exact List.map_congr_left fun sw hsw => poll_dropped sw _ now (h sw hsw)

/-- A list of filter results without an edge has no edge at any index. -/
theorem edgeOf_quiet (switches : List Switch) (i : Nat) :
    edgeOf (switches.map fun sw => (sw, Edge.None)) i = Edge.None := by
  unfold edgeOf
  rw [List.getElem?_map]
  cases switches[i]? <;> rfl

/-- A list of filter results without an edge has no first `Falling` edge. -/
theorem firstFalling_quiet (polled : List (Switch × Edge))
    (h : ∀ r ∈ polled, r.2 = Edge.None) : firstFalling polled = none := by
  induction polled with
  | nil => rfl
  | cons r rest ih =>
    have hr : r.2 ≠ Edge.Falling := by
      rw [h r (List.mem_cons_self _ _)]
      decide
    simp only [firstFalling, hr, if_false,
      ih (fun x hx => h x (List.mem_cons_of_mem _ hx)), Option.map_none']

/-- Without any edge the dispatcher of an edge-driven mode keeps the setting. -/
theorem ModeDispatcher_quiet (m : SelectorMode) (switches : List Switch) (s n : Nat)
    (h1 : m ≠ SelectorMode.SINGLE_SWITCH) (h2 : m ≠ SelectorMode.SINGLE_SWITCH_LED) :
    ModeDispatcher m (switches.map fun sw => (sw, Edge.None)) s n = s := by
  have hnone : ∀ i, edgeOf (switches.map fun sw => (sw, Edge.None)) i ≠ Edge.Falling :=
    fun i => by rw [edgeOf_quiet]; decide
  have hff : firstFalling ((switches.map fun sw => (sw, Edge.None)).take n) = none :=
    firstFalling_quiet _ fun r hr => by
      obtain ⟨sw, _, rfl⟩ := List.mem_map.mp (List.mem_of_mem_take hr)
      rfl
  cases m <;> simp only [ModeDispatcher, hnone, if_false, hff]
  · exact absurd rfl h1
  · exact absurd rfl h2

/-- C6: (1) on a clock that does not run backwards, any two transitions that
the debounce filter of a switch accepts are at least 25 time units apart,
for every starting state of the switch and every sequence of raw readings;
(2) for every sequence of clock values at all, in wraparound arithmetic each
accepted transition comes at least 25 units after the one accepted before
it; (3) a raw level change arriving less than 25 units after the last
accepted transition is dropped: no edge, the stored level and timestamp
unchanged; (4) a poll in which every configured switch is quiet or has its
change dropped has the result of a poll without any raw change, and in the
eight edge-driven modes that result is the unchanged state, with no LED
write and no hook call. -/
theorem C6_debounce_interval (sw : Switch) (inputs : List (Bool × Nat))
    (hclock : List.Pairwise (· ≤ ·) (inputs.map Prod.snd)) :
    List.Pairwise (fun t1 t2 => t1 + 25 ≤ t2)
        ((DebounceFilter.run sw inputs).2.map Prod.fst) ∧
    (∀ (sw0 : Switch) (readings : List (Bool × Nat)),
        List.Chain (fun t1 t2 => 25 ≤ elapsed t2 t1) sw0.lastAccepted
          ((DebounceFilter.run sw0 readings).2.map Prod.fst)) ∧
    (∀ (rawLevel : Bool) (now : Nat), rawLevel ≠ sw.level →
        elapsed now sw.lastAccepted < 25 →
        DebounceFilter.poll sw rawLevel now = (sw, Edge.None)) ∧
    (∀ (p : Polled) (readLevel quiet : pin_t → Bool) (now : Nat),
        (∀ s ∈ p.switches, readLevel s.pin ≠ s.level → elapsed now s.lastAccepted < 25) →
        (∀ s ∈ p.switches, quiet s.pin = s.level) →
        p.refresh readLevel now = p.refresh quiet now ∧
        ∀ m n, p.sel.mode = some m → p.sel.settingCount = some n →
          m ≠ SelectorMode.SINGLE_SWITCH → m ≠ SelectorMode.SINGLE_SWITCH_LED →
          p.refresh readLevel now = some (p, [])) := by
  refine ⟨run_pairwise_gap sw inputs hclock, run_chain_elapsed, ?_, ?_⟩
  · intro rawLevel now _ hel
    exact poll_dropped sw rawLevel now (fun _ => hel)
  · intro p readLevel quiet now hdrop hquiet
    have e1 := pollSwitches_quiet p readLevel now hdrop
    have e2 := pollSwitches_quiet p quiet now (fun s hs hne => absurd (hquiet s hs) hne)
    refine ⟨?_, ?_⟩
    · simp only [Polled.refresh, e1, e2]
    · intro m n hm hn h1 h2
      rw [refresh_eq p readLevel now m n hm hn, e1, ModeDispatcher_quiet m _ _ _ h1 h2]
      have hsw : (p.switches.map fun sw => (sw, Edge.None)).map Prod.fst = p.switches := by
        rw [List.map_map]
        exact List.map_id _
      rw [hsw]
      simp only [Polled.commit, if_true]

/-- C6 witness: a released switch on pin 5 sees a press at 100, a release at
110 (dropped: 10 units after 100), the release again at 126 (accepted), a
press at 130 (dropped) and the press again at 151 (accepted): the accepted
transitions are at 100, 126 and 151, pairwise at least 25 apart. -/
theorem C6_debounce_interval_witness :
    (DebounceFilter.run { pin := 5, level := HIGH, lastAccepted := 0 }
        [(LOW, 100), (HIGH, 110), (HIGH, 126), (LOW, 130), (LOW, 151)]).2 =
      [(100, Edge.Falling), (126, Edge.Rising), (151, Edge.Falling)] ∧
    List.Pairwise (fun t1 t2 => t1 + 25 ≤ t2)
      ((DebounceFilter.run { pin := 5, level := HIGH, lastAccepted := 0 }
        [(LOW, 100), (HIGH, 110), (HIGH, 126), (LOW, 130), (LOW, 151)]).2.map Prod.fst) :=
  ⟨by decide,
    (C6_debounce_interval { pin := 5, level := HIGH, lastAccepted := 0 }
      [(LOW, 100), (HIGH, 110), (HIGH, 126), (LOW, 130), (LOW, 151)] (by decide)).1⟩

/-- C3: in the modes `INCREMENT`, `INCREMENT_LEDS`, `INCREMENT_DECREMENT` and
`INCREMENT_DECREMENT_LEDS`, for every setting count `n ≥ 1` and every
current setting `s` (in `[0, n)` or not): a poll in which the increment button (switch 1) has
an accepted press makes the setting `(s + 1) mod n`; in the two
increment-and-decrement modes a poll in which the decrement button (switch
2) has an accepted press, and switch 1 none, makes it `(s + n − 1) mod n`;
increment from `n − 1` gives `0` and decrement from `0` gives `n − 1`. With
`n = 4`, four presses of the increment button, 100 time units apart with a
release in between, give the settings `1, 2, 3, 0`. -/
theorem C3_increment_decrement_wraparound (p : Polled) (m : SelectorMode) (n : Nat)
    (hm : p.sel.mode = some m)
    (hmode : m = SelectorMode.INCREMENT ∨ m = SelectorMode.INCREMENT_LEDS ∨
      m = SelectorMode.INCREMENT_DECREMENT ∨ m = SelectorMode.INCREMENT_DECREMENT_LEDS)
    (hn : p.sel.nb_settings = some n) (hpos : 1 ≤ n) :
    (∀ (readLevel : pin_t → Bool) (now : Nat),
        edgeOf (p.pollSwitches readLevel now) 0 = Edge.Falling →
        ∃ p' effs, p.refresh readLevel now = some (p', effs) ∧
          p'.getSetting = (p.getSetting + 1) % n) ∧
    (∀ (readLevel : pin_t → Bool) (now : Nat),
        m = SelectorMode.INCREMENT_DECREMENT ∨ m = SelectorMode.INCREMENT_DECREMENT_LEDS →
        edgeOf (p.pollSwitches readLevel now) 0 ≠ Edge.Falling →
        edgeOf (p.pollSwitches readLevel now) 1 = Edge.Falling →
        ∃ p' effs, p.refresh readLevel now = some (p', effs) ∧
          p'.getSetting = (p.getSetting + n - 1) % n) ∧
    (p.getSetting = n - 1 → (p.getSetting + 1) % n = 0) ∧
    (p.getSetting = 0 → (p.getSetting + n - 1) % n = n - 1) ∧
    (Polled.init fixtureIncrement4).settingsAlong
        [(allPressed, 100), (allReleased, 200), (allPressed, 300), (allReleased, 400),
          (allPressed, 500), (allReleased, 600), (allPressed, 700)] =
      some [1, 1, 2, 2, 3, 3, 0] := by
  have hcount : p.sel.settingCount = some n := by
    unfold Selector.settingCount
    rw [hm]
    rcases hmode with rfl | rfl | rfl | rfl <;> exact hn
  refine ⟨?_, ?_, ?_, ?_, by decide⟩
  · intro readLevel now hfall
    refine ⟨_, _, refresh_eq p readLevel now m n hm hcount, ?_⟩
    show (Polled.commit _ _ _ _).1.sel.Setting = _
    rw [commit_setting]
    rcases hmode with rfl | rfl | rfl | rfl <;>
      simp only [ModeDispatcher, hfall, if_true] <;> rfl
  · intro readLevel now hdec hnot hfall
    refine ⟨_, _, refresh_eq p readLevel now m n hm hcount, ?_⟩
    show (Polled.commit _ _ _ _).1.sel.Setting = _
    rw [commit_setting]
    rcases hdec with rfl | rfl <;>
      simp only [ModeDispatcher, hnot, hfall, if_true, if_false] <;> rfl
  · intro hlast
    rw [hlast, Nat.sub_add_cancel hpos]
    exact Nat.mod_self n
  · intro hzero
    rw [hzero, Nat.zero_add]
    exact Nat.mod_eq_of_lt (by omega)

/-- C3 witness: the four-setting increment-and-decrement `Selector` on pins 2
and 3, right after construction (setting `0`): a press of the decrement
button on pin 3 at clock value 100 gives setting `3`. -/
theorem C3_increment_decrement_wraparound_witness :
    (Selector.ctor_array2_count (2, 3) 4).map Prod.fst = some fixtureIncrementDecrement4 ∧
    ∃ p' effs, (Polled.init fixtureIncrementDecrement4).refresh (onlyPressed 3) 100 =
        some (p', effs) ∧ p'.getSetting = 3 :=
  ⟨rfl,
    (C3_increment_decrement_wraparound (Polled.init fixtureIncrementDecrement4)
      SelectorMode.INCREMENT_DECREMENT 4 rfl (Or.inr (Or.inr (Or.inl rfl))) rfl
      (by decide)).2.1 (onlyPressed 3) 100 (Or.inl rfl) (by decide) (by decide)⟩

/-- A list of `pinMode` calls contains no call of the hook. -/
theorem refreshImpl_not_mem_pinModes (pins : List pin_t) (m : PinModeKind) (k : Nat) :
    Effect.refreshImpl k ∉ pins.map (fun p => Effect.pinMode p m) := by
  intro h
  obtain ⟨p, _, hp⟩ := List.mem_map.mp h
  cases hp

/-- In the calls of a `(switch pins, LED pins)` constructor there is no call
of the hook. -/
theorem refreshImpl_not_mem_led_ctor (pre : List Effect) (pins : List pin_t) (n : Nat)
    (led0 : pin_t) (k : Nat) (hpre : ∀ e ∈ pre, ∃ p m, e = Effect.pinMode p m) :
    Effect.refreshImpl k ∉
      pre ++ (pins.take n).map (fun p => Effect.pinMode p PinModeKind.OUTPUT)
        ++ [Effect.digitalWrite led0 HIGH, Effect.append] := by
  intro h
  rcases List.mem_append.mp h with h | h
  · rcases List.mem_append.mp h with h | h
    · obtain ⟨p, m, hp⟩ := hpre _ h
      cases hp
    · exact refreshImpl_not_mem_pinModes _ _ _ h
  · rcases List.mem_cons.mp h with h | h
    · cases h
    · rcases List.mem_cons.mp h with h | h
      · cases h
      · cases h

/-- In the calls of a switch-pins-only list constructor there is no call of
the hook. -/
theorem refreshImpl_not_mem_switch_ctor (pins : List pin_t) (n k : Nat) :
    Effect.refreshImpl k ∉
      (pins.take n).map (fun p => Effect.pinMode p PinModeKind.INPUT_PULLUP)
        ++ [Effect.append] := by
  intro h
  rcases List.mem_append.mp h with h | h
  · exact refreshImpl_not_mem_pinModes _ _ _ h
  · rcases List.mem_cons.mp h with h | h
    · cases h
    · cases h

/-- No constructor calls the hook. -/
theorem constructed_no_hook (s : Selector) (effs : List Effect) (h : Constructed s effs)
    (k : Nat) : Effect.refreshImpl k ∉ effs := by
  cases h with
  | pin switchPin bt h =>
    unfold Selector.ctor_pin at h
    cases bt <;> (cases h; simp)
  | pin_led switchPin ledPin bt h =>
    unfold Selector.ctor_pin_led at h
    cases bt <;> (cases h; simp)
  | array switchPins h =>
    rw [ctor_array_eq] at h; cases h
    exact refreshImpl_not_mem_switch_ctor _ _ _
  | list switchPins h =>
    rw [ctor_list_eq] at h; cases h
    exact refreshImpl_not_mem_switch_ctor _ _ _
  | array_array switchPins ledPins h =>
    cases ledPins with
    | nil => rw [ctor_array_array_nil] at h; cases h
    | cons led0 leds =>
      by_cases h1 : switchPins.length = 1
      · obtain ⟨a, rfl⟩ := list_length_one _ h1
        rw [ctor_array_array_one _ led0 _ List.getElem?_cons_zero] at h; cases h
        exact refreshImpl_not_mem_led_ctor _ _ _ _ _
          (pinModes_are_pinModes [a] PinModeKind.INPUT_PULLUP)
      · by_cases h2 : switchPins.length = 2
        · obtain ⟨a, b, rfl⟩ := list_length_two _ h2
          rw [ctor_array_array_two _ _ led0 _ List.getElem?_cons_zero] at h; cases h
          exact refreshImpl_not_mem_led_ctor _ _ _ _ _
            (pinModes_are_pinModes [a, b] PinModeKind.INPUT_PULLUP)
        · rw [ctor_array_array_multi _ led0 _ List.getElem?_cons_zero h1 h2] at h; cases h
          exact refreshImpl_not_mem_led_ctor _ _ _ _ _ (pinModes_are_pinModes _ _)
  | list_list switchPins ledPins h =>
    cases ledPins with
    | nil => rw [ctor_list_list_nil] at h; cases h
    | cons led0 leds =>
      by_cases h1 : switchPins.length = 1
      · obtain ⟨a, rfl⟩ := list_length_one _ h1
        rw [ctor_list_list_one _ led0 _ List.getElem?_cons_zero] at h; cases h
        exact refreshImpl_not_mem_led_ctor _ _ _ _ _
          (pinModes_are_pinModes [a] PinModeKind.INPUT_PULLUP)
      · by_cases h2 : switchPins.length = 2
        · obtain ⟨a, b, rfl⟩ := list_length_two _ h2
          rw [ctor_list_list_two _ _ led0 _ List.getElem?_cons_zero] at h; cases h
          exact refreshImpl_not_mem_led_ctor _ _ _ _ _
            (pinModes_are_pinModes [a, b] PinModeKind.INPUT_PULLUP)
        · rw [ctor_list_list_multi _ led0 _ List.getElem?_cons_zero h1 h2] at h; cases h
          exact refreshImpl_not_mem_led_ctor _ _ _ _ _ (pinModes_are_pinModes _ _)
  | array2_count switchPins nb h => cases h; simp
  | array1_count switchPins nb h => cases h; simp
  | list_count switchPins nb h =>
    by_cases h1 : switchPins.length = 1
    · obtain ⟨a, rfl⟩ := list_length_one _ h1
      rw [ctor_list_count_one] at h; cases h; simp
    · by_cases h2 : switchPins.length = 2
      · obtain ⟨a, b, rfl⟩ := list_length_two _ h2
        rw [ctor_list_count_two] at h; cases h; simp
      · rw [ctor_list_count_other _ _ h1 h2] at h; cases h; simp

/-- With a first LED pin both `(switch pins, LED pins)` constructors have a
result. -/
theorem led_ctors_have_result (switchPins ledPins : List pin_t) (led0 : pin_t)
    (h0 : ledPins[0]? = some led0) :
    (∃ s effs, Selector.ctor_array_array switchPins ledPins = some (s, effs)) ∧
    (∃ s effs, Selector.ctor_list_list switchPins ledPins = some (s, effs)) := by
  by_cases h1 : switchPins.length = 1
  · obtain ⟨a, rfl⟩ := list_length_one _ h1
    exact ⟨⟨_, _, ctor_array_array_one a led0 ledPins h0⟩,
      ⟨_, _, ctor_list_list_one a led0 ledPins h0⟩⟩
  · by_cases h2 : switchPins.length = 2
    · obtain ⟨a, b, rfl⟩ := list_length_two _ h2
      exact ⟨⟨_, _, ctor_array_array_two a b led0 ledPins h0⟩,
        ⟨_, _, ctor_list_list_two a b led0 ledPins h0⟩⟩
    · exact ⟨⟨_, _, ctor_array_array_multi switchPins led0 ledPins h0 h1 h2⟩,
        ⟨_, _, ctor_list_list_multi switchPins led0 ledPins h0 h1 h2⟩⟩

/-- The initializer-list-and-count constructor always has a result. -/
theorem ctor_list_count_has_result (switchPins : List pin_t) (nb_settings : Nat) :
    ∃ s effs, Selector.ctor_list_count switchPins nb_settings = some (s, effs) := by
  by_cases h1 : switchPins.length = 1
  · obtain ⟨a, rfl⟩ := list_length_one _ h1
    exact ⟨_, _, ctor_list_count_one a nb_settings⟩
  · by_cases h2 : switchPins.length = 2
    · obtain ⟨a, b, rfl⟩ := list_length_two _ h2
      exact ⟨_, _, ctor_list_count_two a b nb_settings⟩
    · exact ⟨_, _, ctor_list_count_other switchPins nb_settings h1 h2⟩

/-- C11: construction is silent. Whatever constructor built a `Selector` and
whatever its arguments, right after construction the setting is `0` and the
calls made contain no call of the hook `refreshImpl`; and every constructor
has such a result for every argument, the two `(switch pins, LED pins)`
constructors for every argument with at least one LED pin (with none they
read `ledPins[0]` out of bounds and no state after construction is
defined). -/
theorem C11_construction_is_silent :
    (∀ (s : Selector) (effs : List Effect), Constructed s effs →
        s.Setting = 0 ∧ ∀ newSetting, Effect.refreshImpl newSetting ∉ effs) ∧
    (∀ switchPin bt, ∃ s effs, Selector.ctor_pin switchPin bt = some (s, effs)) ∧
    (∀ switchPin ledPin bt, ∃ s effs,
        Selector.ctor_pin_led switchPin ledPin bt = some (s, effs)) ∧
    (∀ switchPins, ∃ s effs, Selector.ctor_array switchPins = some (s, effs)) ∧
    (∀ switchPins, ∃ s effs, Selector.ctor_list switchPins = some (s, effs)) ∧
    (∀ switchPins led0 leds, ∃ s effs,
        Selector.ctor_array_array switchPins (led0 :: leds) = some (s, effs)) ∧
    (∀ switchPins led0 leds, ∃ s effs,
        Selector.ctor_list_list switchPins (led0 :: leds) = some (s, effs)) ∧
    (∀ switchPins nb_settings, ∃ s effs,
        Selector.ctor_array2_count switchPins nb_settings = some (s, effs)) ∧
    (∀ switchPins nb_settings, ∃ s effs,
        Selector.ctor_array1_count switchPins nb_settings = some (s, effs)) ∧
    (∀ switchPins nb_settings, ∃ s effs,
        Selector.ctor_list_count switchPins nb_settings = some (s, effs)) := by
  refine ⟨?_, ?_, ?_, ?_, ?_, ?_, ?_, ?_, ?_, ?_⟩
  · intro s effs hc
    exact ⟨constructed_setting s effs hc, constructed_no_hook s effs hc⟩
  · intro switchPin bt
    exact ⟨_, _, rfl⟩
  · intro switchPin ledPin bt
    exact ⟨_, _, rfl⟩
  · intro switchPins
    exact ⟨_, _, ctor_array_eq switchPins⟩
  · intro switchPins
    exact ⟨_, _, ctor_list_eq switchPins⟩
  · intro switchPins led0 leds
    exact (led_ctors_have_result switchPins (led0 :: leds) led0 List.getElem?_cons_zero).1
  · intro switchPins led0 leds
    exact (led_ctors_have_result switchPins (led0 :: leds) led0 List.getElem?_cons_zero).2
  · intro switchPins nb_settings
    exact ⟨_, _, rfl⟩
  · intro switchPins nb_settings
    exact ⟨_, _, rfl⟩
  · intro switchPins nb_settings
    exact ctor_list_count_has_result switchPins nb_settings

/-- C12: for every pair of pin lists, the fixed-size-array constructor and
the initializer-list constructor for (switch pins, LED pins) behave alike:
with no LED pin both read `ledPins[0]` out of bounds; otherwise both have a
result, with the same mode, the same `nb_settings`, the same `dbButton1` and
`dbButton2`, the same setting, the same LED pins and the same calls in the
same order (so the same pins made inputs and outputs). Likewise the array
and the initializer-list form of the switch-pins-only constructor have
results with the same mode, `nb_settings`, buttons, switch pins and calls. -/
theorem C12_array_and_list_forms_agree (switchPins ledPins : List pin_t) :
    ((ledPins = [] ∧ Selector.ctor_array_array switchPins ledPins = none ∧
        Selector.ctor_list_list switchPins ledPins = none) ∨
      ∃ sa sl effs, Selector.ctor_array_array switchPins ledPins = some (sa, effs) ∧
        Selector.ctor_list_list switchPins ledPins = some (sl, effs) ∧
        sa.mode = sl.mode ∧ sa.nb_settings = sl.nb_settings ∧
        sa.dbButton1 = sl.dbButton1 ∧ sa.dbButton2 = sl.dbButton2 ∧
        sa.Setting = sl.Setting ∧ sa.ledPins = sl.ledPins) ∧
    (∃ sa sl effs, Selector.ctor_array switchPins = some (sa, effs) ∧
        Selector.ctor_list switchPins = some (sl, effs) ∧
        sa.mode = sl.mode ∧ sa.nb_settings = sl.nb_settings ∧
        sa.dbButton1 = sl.dbButton1 ∧ sa.dbButton2 = sl.dbButton2 ∧
        sa.Setting = sl.Setting ∧ sa.switchPins = sl.switchPins) := by
  refine ⟨?_, ⟨_, _, _, ctor_array_eq switchPins, ctor_list_eq switchPins, rfl, rfl, rfl, rfl,
    rfl, rfl⟩⟩
  cases hl : ledPins with
  | nil =>
    exact Or.inl ⟨rfl, ctor_array_array_nil switchPins, ctor_list_list_nil switchPins⟩
  | cons led0 leds =>
    right
    have h0 : (led0 :: leds)[0]? = some led0 := List.getElem?_cons_zero
    by_cases h1 : switchPins.length = 1
    · obtain ⟨a, rfl⟩ := list_length_one _ h1
      exact ⟨_, _, _, ctor_array_array_one a led0 _ h0, ctor_list_list_one a led0 _ h0,
        rfl, rfl, rfl, rfl, rfl, rfl⟩
    · by_cases h2 : switchPins.length = 2
      · obtain ⟨a, b, rfl⟩ := list_length_two _ h2
        exact ⟨_, _, _, ctor_array_array_two a b led0 _ h0, ctor_list_list_two a b led0 _ h0,
          rfl, rfl, rfl, rfl, rfl, rfl⟩
      · have ea := ctor_array_array_multi switchPins led0 _ h0 h1 h2
        have el := ctor_list_list_multi switchPins led0 _ h0 h1 h2
        rw [Nat.min_comm] at ea
        exact ⟨_, _, _, ea, el, rfl, rfl, rfl, rfl, rfl, rfl⟩

/-! ## The VU meter: addresses -/

/-- Without wraparound of `addressDiff` (the base address at most 128 above
the target), a match puts the index of `updateImpl` below `nb_addresses`:
the index is the quotient of the address difference by `tracksPerBank`. -/
theorem matchID_index_lt (vu : MCU_VU) (targetID : Nat) (ht : targetID ≤ 15)
    (ha : vu.address ≤ targetID + 128) (hm : vu.matchID targetID = true) :
    vu.index targetID = (targetID - vu.address) / vu.tracksPerBank ∧
      vu.index targetID < vu.nb_addresses := by
  have hd : int8_t ((targetID : Int) - (vu.address : Int)) =
      (targetID : Int) - (vu.address : Int) := by
    simp only [int8_t]
    omega
  simp only [MCU_VU.matchID, hd, Bool.and_eq_true, decide_eq_true_eq] at hm
  obtain ⟨h0, hlt, _⟩ := hm
  have hle : vu.address ≤ targetID := by omega
  have hcast : (targetID : Int) - (vu.address : Int) = ((targetID - vu.address : Nat) : Int) := by
    omega
  rw [hcast] at hlt
  have hlt' : targetID - vu.address < vu.tracksPerBank * vu.nb_addresses := by
    rw [Nat.mul_comm]
    exact_mod_cast hlt
  have hq : (targetID - vu.address) / vu.tracksPerBank < vu.nb_addresses :=
    Nat.div_lt_of_lt_mul hlt'
  have hsmall : (targetID - vu.address) / vu.tracksPerBank < 256 :=
    lt_of_le_of_lt (Nat.div_le_self _ _) (by omega)
  have hidx : vu.index targetID = (targetID - vu.address) / vu.tracksPerBank := by
    simp only [MCU_VU.index, uint8_t, hcast]
    rw [Int.tdiv_eq_ediv (Int.ofNat_nonneg _) (Int.ofNat_nonneg _), ← Int.ofNat_ediv]
    have : (((targetID - vu.address) / vu.tracksPerBank : Nat) : Int) % 256 =
        (((targetID - vu.address) / vu.tracksPerBank : Nat) : Int) :=
      Int.emod_eq_of_lt (Int.ofNat_nonneg _) (by exact_mod_cast hsmall)
    rw [this, Int.toNat_ofNat]
  exact ⟨hidx, hidx ▸ hq⟩

/-- Without a match `updateImpl` returns `false`, leaves the object as it is
and makes no call. -/
theorem updateImpl_no_match (vu : MCU_VU_LED) (data1 now : Nat)
    (hm : vu.toMCU_VU.matchID ((data1 % UINT8) >>> 4) = false) :
    vu.updateImpl data1 now = some (false, vu, []) := by
  simp only [MCU_VU_LED.updateImpl, hm, if_true]

/-- C14: the failing input and what holds around it. For the object
`MCU_VU_LED({2, ..., 9}, 249, 8)` (base address 248, eight addresses) with
eight tracks per bank and the target 0: `addressDiff`, an `int8_t`, wraps
from `-248` to `8`, `matchID(0)` returns `true`, and the index of
`updateImpl`, computed from the difference that did not wrap, is
`uint8_t(-248 / 8) = 225`, not below `nb_addresses = 8`: `updateImpl` on the
message byte `0x05` accesses `values[225]` out of bounds. For a base address
at most 128 above the target (no wraparound) a match does put the index
below `nb_addresses`; and without a match `updateImpl` returns `false` and
changes nothing. -/
theorem C14_index_out_of_bounds_after_wraparound :
    (MCU_VU_LED.ctor fixtureBase8 [2, 3, 4, 5, 6, 7, 8, 9] 249 8 true).map Prod.fst =
        some fixtureMeterAt248 ∧
      fixtureMeterAt248.toMCU_VU.matchID 0 = true ∧
      fixtureMeterAt248.toMCU_VU.index 0 = 225 ∧
      fixtureMeterAt248.nb_addresses = 8 ∧
      fixtureMeterAt248.values.length = 8 ∧
      fixtureMeterAt248.updateImpl 0x05 0 = none ∧
    (∀ (vu : MCU_VU) (targetID : Nat), targetID ≤ 15 → vu.address ≤ targetID + 128 →
        vu.matchID targetID = true →
        vu.index targetID = (targetID - vu.address) / vu.tracksPerBank ∧
          vu.index targetID < vu.nb_addresses) ∧
    (∀ (vu : MCU_VU_LED) (data1 now : Nat),
        vu.toMCU_VU.matchID ((data1 % UINT8) >>> 4) = false →
        vu.updateImpl data1 now = some (false, vu, [])) :=
  ⟨by decide, by decide, by decide, rfl, rfl, by decide, matchID_index_lt, updateImpl_no_match⟩

/-! ## The VU meter: stored bytes -/

set_option maxRecDepth 100000 in
/-- Replacing the low nibble of a byte: the new low nibble is the value, the
high nibble is kept. -/
theorem byte_setValue : ∀ b, b < 256 → ∀ v, v < 16 →
    ((b &&& 0xF0) ||| v) % 16 = v ∧ ((b &&& 0xF0) ||| v) / 16 = b / 16 := by
  decide

set_option maxRecDepth 100000 in
/-- Setting the high nibble of a byte keeps the low nibble. -/
theorem byte_setOverload : ∀ b, b < 256 →
    (b ||| 0xF0) % 16 = b % 16 ∧ (b ||| 0xF0) / 16 = 15 := by
  decide

set_option maxRecDepth 100000 in
/-- The high nibble of a byte masked by `0xF0` is zero exactly when the high
nibble is. -/
theorem byte_getOverload : ∀ b, b < 256 → ((b &&& 0xF0 = 0) ↔ b / 16 = 0) := by
  decide

/-- Masking by `0x0F` gives the low nibble. -/
theorem byte_getValue (b : Nat) : b &&& 0x0F = b % 16 :=
  Nat.and_pow_two_sub_one_eq_mod b 4

/-- A byte in good shape is a byte. -/
theorem nibblesOk_lt (b : Nat) (h : nibblesOk b) : b < 256 := by
  obtain ⟨h1, h2⟩ := h
  omega

/-- `setValue` with a value of at most 12 keeps a byte in good shape. -/
theorem nibblesOk_setValue (b v : Nat) (h : nibblesOk b) (hv : v ≤ 12) :
    nibblesOk ((b &&& 0xF0) ||| v) := by
  obtain ⟨e1, e2⟩ := byte_setValue b (nibblesOk_lt b h) v (by omega)
  exact ⟨by rw [e1]; exact hv, by rw [e2]; exact h.2⟩

/-- `setOverload` keeps a byte in good shape. -/
theorem nibblesOk_setOverload (b : Nat) (h : nibblesOk b) : nibblesOk (b ||| 0xF0) := by
  obtain ⟨e1, e2⟩ := byte_setOverload b (nibblesOk_lt b h)
  exact ⟨by rw [e1]; exact h.1, Or.inr e2⟩

/-- `clearOverload` keeps a byte in good shape. -/
theorem nibblesOk_clearOverload (b : Nat) (h : nibblesOk b) : nibblesOk (b &&& 0x0F) := by
  rw [byte_getValue]
  have h1 := h.1
  refine ⟨?_, Or.inl ?_⟩ <;> omega

/-- Writing a byte in good shape into a buffer of such bytes. -/
theorem nibblesOk_set (values : List Nat) (i x : Nat) (h : ∀ b ∈ values, nibblesOk b)
    (hx : nibblesOk x) : ∀ b ∈ values.set i x, nibblesOk b := by
  intro b hb
  rcases List.mem_or_eq_of_mem_set hb with hb | rfl
  · exact h b hb
  · exact hx

/-- What `setValue` keeps: the base-class members and the size of the
buffer, and, for a value of at most 12, the good shape of its bytes. -/
theorem setValue_preserves (vu vu' : MCU_VU) (i v now : Nat)
    (h : vu.setValue i v now = some vu') :
    vu'.toMIDI_Input_Element = vu.toMIDI_Input_Element ∧
      vu'.values.length = vu.values.length ∧
      (v ≤ 12 → (∀ b ∈ vu.values, nibblesOk b) → ∀ b ∈ vu'.values, nibblesOk b) := by
  unfold MCU_VU.setValue at h
  cases hb : vu.values[i]? with
  | none => rw [hb] at h; cases h
  | some x =>
    rw [hb] at h
    cases h
    exact ⟨rfl, List.length_set _ _ _, fun hv hok =>
      nibblesOk_set _ _ _ hok (nibblesOk_setValue x v (hok x (List.getElem?_mem hb)) hv)⟩

/-- What `setOverload` keeps. -/
theorem setOverload_preserves (vu vu' : MCU_VU) (i : Nat)
    (h : vu.setOverload i = some vu') :
    vu'.toMIDI_Input_Element = vu.toMIDI_Input_Element ∧
      vu'.values.length = vu.values.length ∧
      ((∀ b ∈ vu.values, nibblesOk b) → ∀ b ∈ vu'.values, nibblesOk b) := by
  unfold MCU_VU.setOverload at h
  cases hb : vu.values[i]? with
  | none => rw [hb] at h; cases h
  | some x =>
    rw [hb] at h
    cases h
    exact ⟨rfl, List.length_set _ _ _, fun hok =>
      nibblesOk_set _ _ _ hok (nibblesOk_setOverload x (hok x (List.getElem?_mem hb)))⟩

/-- What `clearOverload` keeps. -/
theorem clearOverload_preserves (vu vu' : MCU_VU) (i : Nat)
    (h : vu.clearOverload i = some vu') :
    vu'.toMIDI_Input_Element = vu.toMIDI_Input_Element ∧
      vu'.values.length = vu.values.length ∧
      ((∀ b ∈ vu.values, nibblesOk b) → ∀ b ∈ vu'.values, nibblesOk b) := by
  unfold MCU_VU.clearOverload at h
  cases hb : vu.values[i]? with
  | none => rw [hb] at h; cases h
  | some x =>
    rw [hb] at h
    cases h
    exact ⟨rfl, List.length_set _ _ _, fun hok =>
      nibblesOk_set _ _ _ hok (nibblesOk_clearOverload x (hok x (List.getElem?_mem hb)))⟩

/-- The peak value read from a buffer of bytes in good shape is the low
nibble of the byte, at most 12. -/
theorem getValue_le (vu : MCU_VU) (i v : Nat) (hok : ∀ b ∈ vu.values, nibblesOk b)
    (h : vu.getValue i = some v) : v ≤ 12 := by
  unfold MCU_VU.getValue at h
  cases hb : vu.values[i]? with
  | none => rw [hb] at h; cases h
  | some x =>
    rw [hb] at h
    cases h
    rw [byte_getValue]
    exact (hok x (List.getElem?_mem hb)).1

/-- What the loop of `reset` keeps. -/
theorem resetLoop_preserves (vu vu' : MCU_VU) (now n : Nat)
    (h : vu.resetLoop now n = some vu') :
    vu'.toMIDI_Input_Element = vu.toMIDI_Input_Element ∧
      vu'.values.length = vu.values.length ∧
      ((∀ b ∈ vu.values, nibblesOk b) → ∀ b ∈ vu'.values, nibblesOk b) := by
  induction n generalizing vu' with
  | zero => cases h; exact ⟨rfl, rfl, fun hok => hok⟩
  | succ k ih =>
    simp only [MCU_VU.resetLoop, Option.bind_eq_bind, Option.bind_eq_some] at h
    obtain ⟨done, hdone, cleared, hcleared, hlast⟩ := h
    obtain ⟨a1, a2, a3⟩ := ih done hdone
    obtain ⟨b1, b2, b3⟩ := setValue_preserves done cleared k 0 now hcleared
    obtain ⟨c1, c2, c3⟩ := clearOverload_preserves cleared vu' k hlast
    exact ⟨c1.trans (b1.trans a1), c2.trans (b2.trans a2),
      fun hok => c3 (b3 (Nat.zero_le 12) (a3 hok))⟩

/-- What the loop of `update` keeps. -/
theorem decayLoop_preserves (vu vu' : MCU_VU) (now n : Nat)
    (h : vu.decayLoop now n = some vu') :
    vu'.toMIDI_Input_Element = vu.toMIDI_Input_Element ∧
      vu'.values.length = vu.values.length ∧
      ((∀ b ∈ vu.values, nibblesOk b) → ∀ b ∈ vu'.values, nibblesOk b) := by
  induction n generalizing vu' with
  | zero => cases h; exact ⟨rfl, rfl, fun hok => hok⟩
  | succ k ih =>
    simp only [MCU_VU.decayLoop, Option.bind_eq_bind, Option.bind_eq_some] at h
    obtain ⟨done, hdone, value, hvalue, hlast⟩ := h
    obtain ⟨a1, a2, a3⟩ := ih done hdone
    by_cases hpos : value > 0
    · simp only [hpos, if_true] at hlast
      obtain ⟨b1, b2, b3⟩ := setValue_preserves done vu' k (value - 1) now hlast
      refine ⟨b1.trans a1, b2.trans a2, fun hok => b3 ?_ (a3 hok)⟩
      have := getValue_le done k value (a3 hok) hvalue
      omega
    · simp only [hpos, if_false] at hlast
      cases hlast
      exact ⟨a1, a2, a3⟩

/-! ## The VU meter: the display -/

/-- The `digitalWrite` loop over `n` LEDs from `start` on, in a list that has
them. -/
theorem digitalWriteLoop_eq (LEDs : List pin_t) (level : Bool) (start n : Nat)
    (h : start + n ≤ LEDs.length) :
    digitalWriteLoop LEDs level start n =
      some (((LEDs.drop start).take n).map fun p => Effect.digitalWrite p level) := by
  induction n with
  | zero => rfl
  | succ k ih =>
    have hk : start + k < LEDs.length := by omega
    rw [digitalWriteLoop, ih (by omega), List.getElem?_eq_getElem hk]
    rw [List.take_succ, List.getElem?_drop, List.getElem?_eq_getElem hk]
    simp only [Option.toList_some, List.map_append, List.map_cons, List.map_nil]
    rfl

/-- A peak value of at most 12 lights at most `length` LEDs: none for the
value 0, all of them for the value 12. -/
theorem litCount_bounds (vu : MCU_VU_LED) (value : Nat) (hv : value ≤ 12) :
    vu.litCount value ≤ vu.length ∧ (value = 0 → vu.litCount value = 0) ∧
      (value = 12 → vu.litCount value = vu.length) := by
  have hmul : value * vu.length ≤ 12 * vu.length := Nat.mul_le_mul_right _ hv
  refine ⟨?_, ?_, ?_⟩
  · simp only [MCU_VU_LED.litCount, floorCorrection]
    omega
  · intro h0
    simp only [MCU_VU_LED.litCount, floorCorrection, h0, Nat.zero_mul]
  · intro h12
    simp only [MCU_VU_LED.litCount, floorCorrection, h12]
    omega

/-- With as many LED pins as `length`, no overload pin in use and a peak
value that lights at most `length` LEDs, `display` writes `HIGH` to the
first lit-count LEDs and `LOW` to the others, each LED once. -/
theorem display_eq (vu : MCU_VU_LED) (value : Nat) (hlen : vu.LEDs.length = vu.length)
    (hover : vu.overload = false)
    (hvalue : vu.toMCU_VU.getValue vu.addressOffset = some value)
    (hlit : vu.litCount value ≤ vu.length) (h255 : vu.length ≤ 255) :
    vu.display =
      some ((vu.LEDs.take (vu.litCount value)).map (fun p => Effect.digitalWrite p HIGH)
        ++ (vu.LEDs.drop (vu.litCount value)).map (fun p => Effect.digitalWrite p LOW)) := by
  have hmod : vu.litCount value % UINT8 = vu.litCount value :=
    Nat.mod_eq_of_lt (show _ < 256 by omega)
  have hhigh := digitalWriteLoop_eq vu.LEDs HIGH 0 (vu.litCount value) (by omega)
  have hlow := digitalWriteLoop_eq vu.LEDs LOW (vu.litCount value)
    (vu.length - vu.litCount value) (by omega)
  have htake : (vu.LEDs.drop (vu.litCount value)).take (vu.length - vu.litCount value) =
      vu.LEDs.drop (vu.litCount value) :=
    List.take_of_length_le (by rw [List.length_drop]; omega)
  rw [htake] at hlow
  rw [List.drop_zero] at hhigh
  simp only [MCU_VU_LED.display, hvalue, hmod, hhigh, hlow, hover, Option.bind_eq_bind,
    Option.some_bind, Option.pure_def, Bool.false_eq_true, if_false, List.append_nil]

/-! ## The VU meter: reachable states -/

/-- The low nibble of a message byte that is none of `0xF`, `0xE`, `0xD` is
at most 12. -/
theorem data_le_twelve (data1 : Nat) (hF : (data1 % UINT8) &&& 0xF ≠ 0xF)
    (hE : (data1 % UINT8) &&& 0xF ≠ 0xE) (hD : (data1 % UINT8) &&& 0xF ≠ 0xD) :
    (data1 % UINT8) &&& 0xF ≤ 12 := by
  rw [byte_getValue] at hF hE hD ⊢
  omega

/-- The body of `updateImpl` in the case of a match, as one expression: the
change of the buffer, then the display. -/
theorem updateImpl_match (vu : MCU_VU_LED) (data1 now : Nat)
    (hm : ¬ vu.toMCU_VU.matchID ((data1 % UINT8) >>> 4) = false) :
    vu.updateImpl data1 now =
      ((if (data1 % UINT8) &&& 0xF = 0xF then
          vu.toMCU_VU.clearOverload (vu.toMCU_VU.index ((data1 % UINT8) >>> 4))
        else if (data1 % UINT8) &&& 0xF = 0xE then
          vu.toMCU_VU.setOverload (vu.toMCU_VU.index ((data1 % UINT8) >>> 4))
        else if (data1 % UINT8) &&& 0xF = 0xD then some vu.toMCU_VU
        else vu.toMCU_VU.setValue (vu.toMCU_VU.index ((data1 % UINT8) >>> 4))
          ((data1 % UINT8) &&& 0xF) now).bind fun done =>
        (MCU_VU_LED.display { vu with toMCU_VU := done }).bind fun effs =>
          some (true, { vu with toMCU_VU := done }, effs)) := by
  unfold MCU_VU_LED.updateImpl
  rw [if_neg hm]
  dsimp only
  split_ifs <;> rfl

/-- What `updateImpl` keeps: the base-class members, the size of the buffer,
the good shape of its bytes, and the LED members. -/
theorem updateImpl_preserves (vu vu' : MCU_VU_LED) (data1 now : Nat) (matched : Bool)
    (effs : List Effect) (h : vu.updateImpl data1 now = some (matched, vu', effs)) :
    vu'.toMIDI_Input_Element = vu.toMIDI_Input_Element ∧
      vu'.values.length = vu.values.length ∧
      ((∀ b ∈ vu.values, nibblesOk b) → ∀ b ∈ vu'.values, nibblesOk b) ∧
      vu'.LEDs = vu.LEDs ∧ vu'.length = vu.length ∧ vu'.overload = vu.overload := by
  by_cases hm : vu.toMCU_VU.matchID ((data1 % UINT8) >>> 4) = false
  · unfold MCU_VU_LED.updateImpl at h
    simp only [hm, if_true, Option.some.injEq, Prod.mk.injEq] at h
    obtain ⟨_, rfl, _⟩ := h
    exact ⟨rfl, rfl, fun hok => hok, rfl, rfl, rfl⟩
  · rw [updateImpl_match vu data1 now hm] at h
    simp only [Option.bind_eq_some, Option.some.injEq, Prod.mk.injEq] at h
    obtain ⟨done, hdone, effs', _, _, rfl, _⟩ := h
    suffices hs : done.toMIDI_Input_Element = vu.toMIDI_Input_Element ∧
        done.values.length = vu.values.length ∧
        ((∀ b ∈ vu.values, nibblesOk b) → ∀ b ∈ done.values, nibblesOk b) from
      ⟨hs.1, hs.2.1, hs.2.2, rfl, rfl, rfl⟩
    by_cases hF : (data1 % UINT8) &&& 0xF = 0xF
    · rw [if_pos hF] at hdone
      exact clearOverload_preserves _ _ _ hdone
    · rw [if_neg hF] at hdone
      by_cases hE : (data1 % UINT8) &&& 0xF = 0xE
      · rw [if_pos hE] at hdone
        exact setOverload_preserves _ _ _ hdone
      · rw [if_neg hE] at hdone
        by_cases hD : (data1 % UINT8) &&& 0xF = 0xD
        · rw [if_pos hD] at hdone
          cases hdone
          exact ⟨rfl, rfl, fun hok => hok⟩
        · rw [if_neg hD] at hdone
          obtain ⟨a1, a2, a3⟩ := setValue_preserves _ _ _ _ _ hdone
          exact ⟨a1, a2, a3 (data_le_twelve data1 hF hE hD)⟩

/-- What `update` keeps. -/
theorem update_preserves (vu vu' : MCU_VU_LED) (now : Nat) (effs : List Effect)
    (h : vu.update now = some (vu', effs)) :
    vu'.toMIDI_Input_Element = vu.toMIDI_Input_Element ∧
      vu'.values.length = vu.values.length ∧
      ((∀ b ∈ vu.values, nibblesOk b) → ∀ b ∈ vu'.values, nibblesOk b) ∧
      vu'.LEDs = vu.LEDs ∧ vu'.length = vu.length ∧ vu'.overload = vu.overload := by
  unfold MCU_VU_LED.update at h
  by_cases hc : vu.decay = true ∧ ulongSub now vu.prevDecayTime > vu.decayTime
  · simp only [hc, and_self, if_true, Option.bind_eq_bind, Option.bind_eq_some,
      Option.pure_def, Option.some.injEq, Prod.mk.injEq] at h
    obtain ⟨done, hdone, effs', _, rfl, _⟩ := h
    obtain ⟨a1, a2, a3⟩ := decayLoop_preserves _ _ _ _ hdone
    exact ⟨a1, a2, a3, rfl, rfl, rfl⟩
  · simp only [hc, if_false, Option.some.injEq, Prod.mk.injEq] at h
    obtain ⟨rfl, _⟩ := h
    exact ⟨rfl, rfl, fun hok => hok, rfl, rfl, rfl⟩

/-- What `reset` keeps. -/
theorem reset_preserves (vu vu' : MCU_VU_LED) (now : Nat) (effs : List Effect)
    (h : vu.reset now = some (vu', effs)) :
    vu'.toMIDI_Input_Element = vu.toMIDI_Input_Element ∧
      vu'.values.length = vu.values.length ∧
      ((∀ b ∈ vu.values, nibblesOk b) → ∀ b ∈ vu'.values, nibblesOk b) ∧
      vu'.LEDs = vu.LEDs ∧ vu'.length = vu.length ∧ vu'.overload = vu.overload := by
  unfold MCU_VU_LED.reset at h
  simp only [Option.bind_eq_bind, Option.bind_eq_some, Option.pure_def, Option.some.injEq,
    Prod.mk.injEq] at h
  obtain ⟨done, hdone, effs', _, rfl, _⟩ := h
  obtain ⟨a1, a2, a3⟩ := resetLoop_preserves _ _ _ _ hdone
  exact ⟨a1, a2, a3, rfl, rfl, rfl⟩

/-- The invariant of the VU meter: every reachable state has the base-class
members, the buffer size and the LED members of the start, and, when the
start has them, bytes in good shape. -/
theorem vu_reachable_invariant (vu0 vu : MCU_VU_LED) (hr : VUReachable vu0 vu) :
    vu.toMIDI_Input_Element = vu0.toMIDI_Input_Element ∧
      vu.values.length = vu0.values.length ∧
      ((∀ b ∈ vu0.values, nibblesOk b) → ∀ b ∈ vu.values, nibblesOk b) ∧
      vu.LEDs = vu0.LEDs ∧ vu.length = vu0.length ∧ vu.overload = vu0.overload := by
  induction hr with
  | init => exact ⟨rfl, rfl, fun hok => hok, rfl, rfl, rfl⟩
  | updateImpl data1 now _ hstep ih =>
    obtain ⟨a1, a2, a3, a4, a5, a6⟩ := updateImpl_preserves _ _ _ _ _ _ hstep
    obtain ⟨b1, b2, b3, b4, b5, b6⟩ := ih
    exact ⟨a1.trans b1, a2.trans b2, fun hok => a3 (b3 hok), a4.trans b4, a5.trans b5,
      a6.trans b6⟩
  | update now _ hstep ih =>
    obtain ⟨a1, a2, a3, a4, a5, a6⟩ := update_preserves _ _ _ _ hstep
    obtain ⟨b1, b2, b3, b4, b5, b6⟩ := ih
    exact ⟨a1.trans b1, a2.trans b2, fun hok => a3 (b3 hok), a4.trans b4, a5.trans b5,
      a6.trans b6⟩
  | reset now _ hstep ih =>
    obtain ⟨a1, a2, a3, a4, a5, a6⟩ := reset_preserves _ _ _ _ hstep
    obtain ⟨b1, b2, b3, b4, b5, b6⟩ := ih
    exact ⟨a1.trans b1, a2.trans b2, fun hok => a3 (b3 hok), a4.trans b4, a5.trans b5,
      a6.trans b6⟩

/-- What the constructor of `MCU_VU_LED` leaves: at most 12 LEDs, as many as
`length`, no overload pin in use, and a zeroed buffer of `nb_addresses`
bytes. -/
theorem vu_ctor_facts (base : Int → Nat → Nat → Nat → MIDI_Input_Element)
    (LEDs : List pin_t) (address nb_addresses : Nat) (decay : Bool) (vu0 : MCU_VU_LED)
    (effs0 : List Effect)
    (h : MCU_VU_LED.ctor base LEDs address nb_addresses decay = some (vu0, effs0)) :
    LEDs.length ≤ 12 ∧ vu0.LEDs = LEDs ∧ vu0.length = LEDs.length ∧
      vu0.overload = false ∧ vu0.values.length = vu0.nb_addresses ∧
      (∀ b ∈ vu0.values, nibblesOk b) ∧
      effs0 = LEDs.map (fun p => Effect.pinMode p PinModeKind.OUTPUT) := by
  unfold MCU_VU_LED.ctor at h
  by_cases hle : LEDs.length ≤ 12
  · have hloop := pinModeLoop_eq LEDs PinModeKind.OUTPUT LEDs.length (Nat.le_refl _)
    rw [List.take_length] at hloop
    simp only [hle, if_true, hloop, Option.bind_eq_bind, Option.some_bind, Option.pure_def,
      Option.some.injEq, Prod.mk.injEq] at h
    obtain ⟨rfl, rfl⟩ := h
    refine ⟨hle, rfl, rfl, rfl, ?_, ?_, rfl⟩
    · simp only [MCU_VU.ctor, MCU_VU.initBuffer, List.length_replicate]
    · intro b hb
      simp only [MCU_VU.ctor, MCU_VU.initBuffer] at hb
      rw [List.eq_of_mem_replicate hb]
      exact ⟨by decide, Or.inl (by decide)⟩
  · simp only [hle, if_false] at h
    cases h

/-- `setValue` with a value of at most 12 stores the value and leaves the
overload flag of the same byte as it was. -/
theorem setValue_nibbles (vu vu' : MCU_VU) (i v now : Nat)
    (hok : ∀ b ∈ vu.values, nibblesOk b) (hv : v ≤ 12)
    (h : vu.setValue i v now = some vu') :
    vu'.getValue i = some v ∧ vu'.getOverload i = vu.getOverload i := by
  unfold MCU_VU.setValue at h
  cases hb : vu.values[i]? with
  | none => rw [hb] at h; cases h
  | some x =>
    rw [hb] at h
    cases h
    obtain ⟨hlt, _⟩ := List.getElem?_eq_some.mp hb
    have hx := hok x (List.getElem?_mem hb)
    obtain ⟨e1, e2⟩ := byte_setValue x (nibblesOk_lt x hx) v (by omega)
    have hnew := nibblesOk_lt _ (nibblesOk_setValue x v hx hv)
    have hflag : ((x &&& 0xF0) ||| v) &&& 0xF0 = 0 ↔ x &&& 0xF0 = 0 := by
      rw [byte_getOverload _ hnew, byte_getOverload _ (nibblesOk_lt x hx), e2]
    simp only [MCU_VU.getValue, MCU_VU.getOverload, List.getElem?_set_self hlt, hb,
      byte_getValue, e1, ne_eq, hflag, and_self]

/-- `setOverload` sets the overload flag and leaves the peak value of the
same byte as it was. -/
theorem setOverload_nibbles (vu vu' : MCU_VU) (i : Nat)
    (hok : ∀ b ∈ vu.values, nibblesOk b) (h : vu.setOverload i = some vu') :
    vu'.getValue i = vu.getValue i ∧ vu'.getOverload i = some true := by
  unfold MCU_VU.setOverload at h
  cases hb : vu.values[i]? with
  | none => rw [hb] at h; cases h
  | some x =>
    rw [hb] at h
    cases h
    obtain ⟨hlt, _⟩ := List.getElem?_eq_some.mp hb
    have hx := hok x (List.getElem?_mem hb)
    obtain ⟨e1, e2⟩ := byte_setOverload x (nibblesOk_lt x hx)
    have hnew := nibblesOk_lt _ (nibblesOk_setOverload x hx)
    have hflag : ¬ ((x ||| 0xF0) &&& 0xF0 = 0) := by
      rw [byte_getOverload _ hnew, e2]
      decide
    simp only [MCU_VU.getValue, MCU_VU.getOverload, List.getElem?_set_self hlt, hb,
      byte_getValue, e1, ne_eq, hflag, not_false_eq_true, decide_True, and_self]

/-- `clearOverload` clears the overload flag and leaves the peak value of the
same byte as it was. -/
theorem clearOverload_nibbles (vu vu' : MCU_VU) (i : Nat)
    (hok : ∀ b ∈ vu.values, nibblesOk b) (h : vu.clearOverload i = some vu') :
    vu'.getValue i = vu.getValue i ∧ vu'.getOverload i = some false := by
  unfold MCU_VU.clearOverload at h
  cases hb : vu.values[i]? with
  | none => rw [hb] at h; cases h
  | some x =>
    rw [hb] at h
    cases h
    obtain ⟨hlt, _⟩ := List.getElem?_eq_some.mp hb
    have hx := hok x (List.getElem?_mem hb)
    have hnew := nibblesOk_lt _ (nibblesOk_clearOverload x hx)
    have hflag : (x &&& 0x0F) &&& 0xF0 = 0 := by
      rw [byte_getOverload _ hnew, byte_getValue]
      omega
    have hlow : (x &&& 0x0F) &&& 0x0F = x &&& 0x0F := by
      rw [byte_getValue, byte_getValue]
      omega
    simp only [MCU_VU.getValue, MCU_VU.getOverload, List.getElem?_set_self hlt, hb, hlow,
      ne_eq, hflag, not_true_eq_false, decide_False, and_self]

/-- C13: in every state of an `MCU_VU_LED` reachable from construction
through `updateImpl`, `update` and `reset`, every stored byte has a peak
value of at most 12 in its low nibble and the overload flag in its high
nibble (`setValue` leaves the flag, `setOverload` and `clearOverload` leave
the value); the object still has the LED pins of construction, `length` of
them, at most 12; and when the displayed value `getValue(addressOffset)` is
defined, `display` has a result: it writes `HIGH` to the first
`(value * length + 5) / 12` LEDs and `LOW` to the others, that number being
`0` for the value 0, `length` for the value 12 and never above `length`, so
every LED written is one of the `length` LEDs. -/
theorem C13_vu_led_display_in_bounds (base : Int → Nat → Nat → Nat → MIDI_Input_Element)
    (LEDs : List pin_t) (address nb_addresses : Nat) (decay : Bool)
    (vu0 vu : MCU_VU_LED) (effs0 : List Effect)
    (hctor : MCU_VU_LED.ctor base LEDs address nb_addresses decay = some (vu0, effs0))
    (hr : VUReachable vu0 vu) :
    (∀ b ∈ vu.values, nibblesOk b) ∧
    (∀ i value, vu.toMCU_VU.getValue i = some value → value ≤ 12) ∧
    (∀ i v now vu', v ≤ 12 → vu.toMCU_VU.setValue i v now = some vu' →
        vu'.getValue i = some v ∧ vu'.getOverload i = vu.toMCU_VU.getOverload i) ∧
    (∀ i vu', vu.toMCU_VU.setOverload i = some vu' →
        vu'.getValue i = vu.toMCU_VU.getValue i ∧ vu'.getOverload i = some true) ∧
    (∀ i vu', vu.toMCU_VU.clearOverload i = some vu' →
        vu'.getValue i = vu.toMCU_VU.getValue i ∧ vu'.getOverload i = some false) ∧
    vu.LEDs = LEDs ∧ vu.length = LEDs.length ∧ vu.length ≤ 12 ∧
    vu.values.length = vu.nb_addresses ∧
    (vu.addressOffset < vu.nb_addresses →
        ∃ value, vu.toMCU_VU.getValue vu.addressOffset = some value) ∧
    (∀ value, vu.toMCU_VU.getValue vu.addressOffset = some value →
        vu.litCount value = (value * vu.length + 5) / 12 ∧
        vu.litCount value ≤ vu.length ∧
        (value = 0 → vu.litCount value = 0) ∧
        (value = 12 → vu.litCount value = vu.length) ∧
        vu.display =
          some ((vu.LEDs.take (vu.litCount value)).map (fun p => Effect.digitalWrite p HIGH)
            ++ (vu.LEDs.drop (vu.litCount value)).map
              (fun p => Effect.digitalWrite p LOW))) := by
  obtain ⟨h12, hLEDs, hlen, hover, hvals, hok0, _⟩ :=
    vu_ctor_facts base LEDs address nb_addresses decay vu0 effs0 hctor
  obtain ⟨a1, a2, a3, a4, a5, a6⟩ := vu_reachable_invariant vu0 vu hr
  have hok := a3 hok0
  have hlength : vu.length = LEDs.length := a5.trans hlen
  have hsize : vu.values.length = vu.nb_addresses := by
    have hnb : vu.nb_addresses = vu0.nb_addresses := congrArg MIDI_Input_Element.nb_addresses a1
    rw [a2, hvals, hnb]
  refine ⟨hok, fun i value hv => getValue_le _ i value hok hv,
    fun i v now vu' hv h => setValue_nibbles _ vu' i v now hok hv h,
    fun i vu' h => setOverload_nibbles _ vu' i hok h,
    fun i vu' h => clearOverload_nibbles _ vu' i hok h,
    a4.trans hLEDs, hlength, by omega, hsize, ?_, ?_⟩
  · intro hoff
    have hlt : vu.addressOffset < vu.values.length := by omega
    refine ⟨vu.values[vu.addressOffset] &&& 0x0F, ?_⟩
    simp only [MCU_VU.getValue, List.getElem?_eq_getElem hlt]
  · intro value hvalue
    have hv := getValue_le _ _ value hok hvalue
    obtain ⟨b1, b2, b3⟩ := litCount_bounds vu value hv
    refine ⟨rfl, b1, b2, b3, ?_⟩
    exact display_eq vu value (by rw [a4, hLEDs, hlength]) (a6.trans hover) hvalue b1
      (by omega)

/-- C13 witness: the meter with eight LEDs on pins 2 to 9 after the message
bytes `0x0E` (overload of track 0) and `0x06` (peak value 6 of track 0): the
stored byte is `0xF6`, and `display` lights `(6 * 8 + 5) / 12 = 4` LEDs, pins
2 to 5, and turns off pins 6 to 9. -/
theorem C13_vu_led_display_in_bounds_witness :
    MCU_VU_LED.ctor fixtureBase1 [2, 3, 4, 5, 6, 7, 8, 9] 1 2 true =
        some (fixtureMeter, [2, 3, 4, 5, 6, 7, 8, 9].map
          (fun p => Effect.pinMode p PinModeKind.OUTPUT)) ∧
    VUReachable fixtureMeter fixtureMeterAtSix ∧
    fixtureMeterAtSix.litCount 6 = 4 ∧
    fixtureMeterAtSix.display =
      some [Effect.digitalWrite 2 HIGH, Effect.digitalWrite 3 HIGH,
        Effect.digitalWrite 4 HIGH, Effect.digitalWrite 5 HIGH,
        Effect.digitalWrite 6 LOW, Effect.digitalWrite 7 LOW,
        Effect.digitalWrite 8 LOW, Effect.digitalWrite 9 LOW] :=
  have hctor : MCU_VU_LED.ctor fixtureBase1 [2, 3, 4, 5, 6, 7, 8, 9] 1 2 true =
      some (fixtureMeter, [2, 3, 4, 5, 6, 7, 8, 9].map
        (fun p => Effect.pinMode p PinModeKind.OUTPUT)) := by decide
  have hstep1 : fixtureMeter.updateImpl 0x0E 10 =
      some (true, { fixtureMeter with values := [0xF0, 0] },
        [2, 3, 4, 5, 6, 7, 8, 9].map (fun p => Effect.digitalWrite p LOW)) := by decide
  have hstep2 : MCU_VU_LED.updateImpl { fixtureMeter with values := [0xF0, 0] } 0x06 10 =
      some (true, fixtureMeterAtSix,
        [Effect.digitalWrite 2 HIGH, Effect.digitalWrite 3 HIGH,
          Effect.digitalWrite 4 HIGH, Effect.digitalWrite 5 HIGH,
          Effect.digitalWrite 6 LOW, Effect.digitalWrite 7 LOW,
          Effect.digitalWrite 8 LOW, Effect.digitalWrite 9 LOW]) := by decide
  have hr : VUReachable fixtureMeter fixtureMeterAtSix :=
    VUReachable.updateImpl 0x06 10 (VUReachable.updateImpl 0x0E 10 VUReachable.init hstep1)
      hstep2
  ⟨hctor, hr, by decide,
    ((C13_vu_led_display_in_bounds fixtureBase1 [2, 3, 4, 5, 6, 7, 8, 9] 1 2 true
      fixtureMeter fixtureMeterAtSix _ hctor hr).2.2.2.2.2.2.2.2.2.2 6 (by decide)).2.2.2.2⟩

end ControlSurface
